import Mathlib

/-! JuiceFS cache-group operator: worker builder, template merger, sync
secret, derived names, error helpers and content hash.

A shallow embedding of `pkg/builder/pod.go`, `pkg/builder/sync_secret.go`,
`pkg/common/common.go`, `pkg/utils/utils.go` and `pkg/utils/error.go` with the
library functions they call, followed by theorems about what they produce.

Conventions of the embedding

* a Go `string` is a Lean `String`;
* a Go slice that the code tests against `nil` is a `Slice α` (`none` is the
  nil slice, `some []` the empty non-nil slice);
* a Go pointer is an `Option`;
* a Go `map[string]string` is an association list read with `Map.get`;
* a method with a pointer receiver that assigns to the receiver returns the
  receiver's new state.
-/

namespace JuiceFS

/-! ## Go runtime and standard library -/

/-- Go slice: `none` is `nil`. -/
abbrev Slice (α : Type) := Option (List α)

/-- Elements of a slice, as ranged over by `for ... range`. -/
def Slice.toList {α : Type} (s : Slice α) : List α := s.getD []

/-- Go `append(s, x)`: the result is never nil. -/
def Slice.append {α : Type} (s : Slice α) (x : α) : Slice α := some (s.toList ++ [x])

/-- Go `map[string]string`. -/
abbrev Map := List (String × String)

/-- Go `v, ok := m[k]`: `none` when `ok` is false. -/
def Map.get (m : Map) (k : String) : Option String := List.lookup k m

/-- Go `m[k]`: the zero value when the key is absent. -/
def Map.index (m : Map) (k : String) : String := (Map.get m k).getD ""

/-- Go `m[k] = v`: the entry of `k`, if any, is replaced. -/
def Map.set (m : Map) (k : String) (v : String) : Map :=
  m.filter (fun e => e.1 ≠ k) ++ [(k, v)]

namespace strings

/-- Pieces of `s` between occurrences of the character `sep`. -/
def splitChars (sep : Char) : List Char → List (List Char)
  | [] => [[]]
  | c :: cs =>
    if c = sep then [] :: splitChars sep cs
    else
      match splitChars sep cs with
      | [] => [[c]]
      | h :: t => (c :: h) :: t

/-- Go `strings.Split(s, sep)` for a one-character separator, the only form
the builder uses (`","` and `":"`): the result always has at least one
element. -/
def Split (s : String) (sep : Char) : List String :=
  (splitChars sep s.data).map String.mk

/-- Go `strings.Join(elems, sep)`. -/
def Join : List String → String → String
  | [], _ => ""
  | [a], _ => a
  | a :: b :: rest, sep => a ++ sep ++ Join (b :: rest) sep

/-- Go `unicode.IsSpace`. -/
def isSpace (c : Char) : Bool :=
  c = '\t' || c = '\n' || c.val = 0x0B || c.val = 0x0C || c = '\r' || c = ' ' ||
  c.val = 0x85 || c.val = 0xA0 || c.val = 0x1680 ||
  (0x2000 ≤ c.val && c.val ≤ 0x200A) ||
  c.val = 0x2028 || c.val = 0x2029 || c.val = 0x202F || c.val = 0x205F || c.val = 0x3000

/-- Go `strings.TrimSpace`. -/
def TrimSpace (s : String) : String :=
  String.mk ((s.data.dropWhile isSpace).reverse.dropWhile isSpace).reverse

end strings

namespace fmt

/-- Expansion of the `%s` verbs of a format string. -/
def sprintfChars : List Char → List String → List Char
  | [], _ => []
  | '%' :: 's' :: rest, a :: args => a.data ++ sprintfChars rest args
  | '%' :: 's' :: rest, [] => "%!s(MISSING)".data ++ sprintfChars rest []
  | c :: rest, args => c :: sprintfChars rest args

/-- Go `fmt.Sprintf` for formats whose only verb is `%s` and string
arguments. -/
def Sprintf (format : String) (args : List String) : String :=
  String.mk (sprintfChars format.data args)

end fmt

/-! ## Kubernetes types (the fields the operator reads or writes) -/

namespace metav1

structure OwnerReference where
  APIVersion : String
  Kind : String
  Name : String
  UID : String
  Controller : Option Bool
  deriving DecidableEq, Repr

structure ObjectMeta where
  Name : String
  Namespace : String
  Annotations : Map
  Labels : Map
  OwnerReferences : List OwnerReference
  deriving DecidableEq, Repr

end metav1

namespace corev1

structure LocalObjectReference where
  Name : String
  deriving DecidableEq, Repr

structure SecretKeySelector where
  LocalObjectReference : LocalObjectReference
  Key : String
  Optional : Option Bool
  deriving DecidableEq, Repr

structure EnvVarSource where
  SecretKeyRef : Option SecretKeySelector
  deriving DecidableEq, Repr

structure EnvVar where
  Name : String
  Value : String := ""
  ValueFrom : Option EnvVarSource := none
  deriving DecidableEq, Repr

structure KeyToPath where
  Key : String
  Path : String
  deriving DecidableEq, Repr

structure SecretVolumeSource where
  SecretName : String
  Items : List KeyToPath
  deriving DecidableEq, Repr

/-- Volume source: the secret source the builder writes, and a host path
standing for the sources a template may carry. -/
structure VolumeSource where
  Secret : Option SecretVolumeSource := none
  HostPath : Option String := none
  deriving DecidableEq, Repr

structure Volume where
  Name : String
  VolumeSource : VolumeSource
  deriving DecidableEq, Repr

structure VolumeMount where
  Name : String
  MountPath : String
  deriving DecidableEq, Repr

structure VolumeDevice where
  Name : String
  DevicePath : String
  deriving DecidableEq, Repr

structure Toleration where
  Key : String
  Operator : String
  Value : String
  Effect : String
  deriving DecidableEq, Repr

structure ExecAction where
  Command : List String
  deriving DecidableEq, Repr

structure LifecycleHandler where
  Exec : Option ExecAction
  deriving DecidableEq, Repr

structure Lifecycle where
  PostStart : Option LifecycleHandler := none
  PreStop : Option LifecycleHandler := none
  deriving DecidableEq, Repr

structure Probe where
  Exec : Option ExecAction
  PeriodSeconds : Nat
  deriving DecidableEq, Repr

structure SecurityContext where
  Privileged : Option Bool := none
  RunAsUser : Option Int := none
  deriving DecidableEq, Repr

/-- Resource list: resource name to quantity, the quantity in the textual
form given to `resource.MustParse`. -/
abbrev ResourceList := Map

structure ResourceRequirements where
  Limits : ResourceList
  Requests : ResourceList
  deriving DecidableEq, Repr

structure Container where
  Name : String := ""
  Image : String := ""
  Command : List String := []
  Env : List EnvVar := []
  Resources : ResourceRequirements := ⟨[], []⟩
  VolumeMounts : Slice VolumeMount := none
  VolumeDevices : Slice VolumeDevice := none
  LivenessProbe : Option Probe := none
  ReadinessProbe : Option Probe := none
  StartupProbe : Option Probe := none
  Lifecycle : Option Lifecycle := none
  SecurityContext : Option SecurityContext := none
  deriving DecidableEq, Repr

structure PodSpec where
  Volumes : Slice Volume := none
  Containers : List Container := []
  ServiceAccountName : String := ""
  NodeName : String := ""
  HostNetwork : Bool := false
  DNSPolicy : String := ""
  Tolerations : Slice Toleration := none
  SchedulerName : String := ""
  deriving DecidableEq, Repr

structure Pod where
  ObjectMeta : metav1.ObjectMeta
  Spec : PodSpec
  deriving DecidableEq, Repr

/-- Secret: the data read from the cluster, and the metadata and string
data written when a secret is built. -/
structure Secret where
  Data : Map := []
  ObjectMeta : metav1.ObjectMeta := ⟨"", "", [], [], []⟩
  StringData : Map := []
  deriving DecidableEq, Repr

end corev1

/-! ## API types of the operator (`api/v1`), as used by the builder -/

namespace juicefsiov1

structure CacheGroupWorkerTemplate where
  ServiceAccountName : String := ""
  HostNetwork : Option Bool := none
  SchedulerName : String := ""
  Tolerations : Slice corev1.Toleration := none
  Image : String := ""
  Env : Slice corev1.EnvVar := none
  Resources : Option corev1.ResourceRequirements := none
  LivenessProbe : Option corev1.Probe := none
  ReadinessProbe : Option corev1.Probe := none
  StartupProbe : Option corev1.Probe := none
  SecurityContext : Option corev1.SecurityContext := none
  Lifecycle : Option corev1.Lifecycle := none
  VolumeMounts : Slice corev1.VolumeMount := none
  VolumeDevices : Slice corev1.VolumeDevice := none
  Volumes : Slice corev1.Volume := none
  Opts : Slice String := none
  DNSPolicy : Option String := none
  deriving DecidableEq, Repr

structure CacheGroupWorkerOverwrite where
  ServiceAccountName : String := ""
  HostNetwork : Option Bool := none
  SchedulerName : String := ""
  Tolerations : Slice corev1.Toleration := none
  Image : String := ""
  Env : Slice corev1.EnvVar := none
  Resources : Option corev1.ResourceRequirements := none
  LivenessProbe : Option corev1.Probe := none
  ReadinessProbe : Option corev1.Probe := none
  StartupProbe : Option corev1.Probe := none
  SecurityContext : Option corev1.SecurityContext := none
  Lifecycle : Option corev1.Lifecycle := none
  VolumeMounts : Slice corev1.VolumeMount := none
  VolumeDevices : Slice corev1.VolumeDevice := none
  Volumes : Slice corev1.Volume := none
  Opts : Slice String := none
  DNSPolicy : Option String := none
  deriving DecidableEq, Repr

structure CacheGroupSpec where
  CacheGroup : String := ""
  SecretRef : corev1.LocalObjectReference
  deriving DecidableEq, Repr

structure CacheGroup where
  APIVersion : String
  Kind : String
  Name : String
  Namespace : String
  UID : String
  Spec : CacheGroupSpec
  deriving DecidableEq, Repr

structure SyncSinkValue where
  Value : String := ""
  deriving DecidableEq, Repr

structure SyncSinkJuiceFS where
  Token : SyncSinkValue := {}
  AccessKey : SyncSinkValue := {}
  SecretKey : SyncSinkValue := {}
  deriving DecidableEq, Repr

structure SyncSinkExternal where
  AccessKey : SyncSinkValue := {}
  SecretKey : SyncSinkValue := {}
  deriving DecidableEq, Repr

structure SyncSink where
  External : Option SyncSinkExternal := none
  JuiceFS : Option SyncSinkJuiceFS := none
  deriving DecidableEq, Repr

structure SyncSpec where
  From : SyncSink
  To : SyncSink
  deriving DecidableEq, Repr

structure Sync where
  Name : String
  Namespace : String
  UID : String
  Spec : SyncSpec
  deriving DecidableEq, Repr

end juicefsiov1

/-! ## Package `common` -/

namespace common

def WorkerContainerName : String := "juicefs-cg-worker"
def WorkerNamePrefix : String := "juicefs-cg-worker"
def WarmUpNamePrefix : String := "juicefs-warmup"
def JuiceFSBinary : String := "/usr/bin/juicefs"
def JuiceFsMountBinary : String := "/sbin/mount.juicefs"
def MountPoint : String := "/mnt/jfs"
def LabelCacheGroup : String := "juicefs.io/cache-group"
def LabelWorkerHash : String := "juicefs.io/worker-hash"
def LabelWorker : String := "app.kubernetes.io/name"
def LabelWorkerValue : String := "juicefs-cache-group-worker"

def DefaultResources : corev1.ResourceRequirements :=
  { Limits := [("cpu", "100m"), ("memory", "100Mi")]
    Requests := [("cpu", "1"), ("memory", "1Gi")] }

def GenWorkerName (cgName : String) (nodeName : String) : String :=
  fmt.Sprintf "%s-%s-%s" [WorkerNamePrefix, cgName, nodeName]

def GenJobName (wuName : String) : String :=
  fmt.Sprintf "%s-%s" [WarmUpNamePrefix, wuName]

def GenSaName (wuName : String) : String :=
  fmt.Sprintf "%s-%s-sa" [WarmUpNamePrefix, wuName]

def GenRoleBindingName (wuName : String) : String :=
  fmt.Sprintf "%s-%s-binding" [WarmUpNamePrefix, wuName]

def GenRoleName (wuName : String) : String :=
  fmt.Sprintf "%s-%s-role" [WarmUpNamePrefix, wuName]

end common

/-! ## Package `utils` -/

/-- Functions of package `utils` whose bodies are not part of this
development: the builder is parametric in them.  `ParseSecret` gives the
credential as a string map; `ParseOptions` gives, for each accepted option, the
two-element slice `[key, value]` as a pair. -/
structure Utils where
  ParseSecret : corev1.Secret → Map
  ParseOptions : Slice String → List (String × String)

/-- Go `error` values other than nil: an API status error with its reason
and HTTP code, or any other error. -/
inductive GoError where
  | status (reason : String) (code : Nat) (message : String)
  | other (message : String)
  deriving DecidableEq, Repr

/-- Go `error`: `none` is nil. -/
abbrev error := Option GoError

/-! ### Package `k8s.io/apimachinery/pkg/api/errors` -/

namespace apierrors

def knownReasons : List String :=
  ["Unauthorized", "Forbidden", "NotFound", "AlreadyExists", "Conflict", "Gone", "Invalid",
   "ServerTimeout", "Timeout", "TooManyRequests", "BadRequest", "MethodNotAllowed",
   "NotAcceptable", "RequestEntityTooLarge", "UnsupportedMediaType", "InternalError", "Expired",
   "ServiceUnavailable"]

/-- Reason and code of an error: the unknown reason (empty) and code 0 for
nil and for errors that are not API status errors. -/
def reasonAndCodeForError (err : error) : String × Nat :=
  match err with
  | some (GoError.status reason code _) => (reason, code)
  | _ => ("", 0)

def ReasonForError (err : error) : String := (reasonAndCodeForError err).1

def IsConflict (err : error) : Bool :=
  let rc := reasonAndCodeForError err
  if rc.1 = "Conflict" then true
  else if ¬ (rc.1 ∈ knownReasons) ∧ rc.2 = 409 then true
  else false

def IsAlreadyExists (err : error) : Bool :=
  ReasonForError err = "AlreadyExists"

end apierrors

/-! ### Package `encoding/hex` -/

namespace hex

def hextable : String := "0123456789abcdef"

/-- Go `hex.EncodeToString`: two digits per byte, `hextable[v>>4]` and
`hextable[v&0x0f]`; a byte is a natural number taken modulo 256. -/
def EncodeToString (src : List Nat) : String :=
  String.mk (src.flatMap (fun v =>
    [hextable.data.getD ((v % 256) / 16) '0', hextable.data.getD ((v % 256) % 16) '0']))

end hex

/-! ### Package `crypto/sha256` -/

namespace sha256

/-- Round constants of SHA-256. -/
def K : List Nat :=
  [0x428a2f98, 0x71374491, 0xb5c0fbcf, 0xe9b5dba5, 0x3956c25b, 0x59f111f1, 0x923f82a4, 0xab1c5ed5,
   0xd807aa98, 0x12835b01, 0x243185be, 0x550c7dc3, 0x72be5d74, 0x80deb1fe, 0x9bdc06a7, 0xc19bf174,
   0xe49b69c1, 0xefbe4786, 0x0fc19dc6, 0x240ca1cc, 0x2de92c6f, 0x4a7484aa, 0x5cb0a9dc, 0x76f988da,
   0x983e5152, 0xa831c66d, 0xb00327c8, 0xbf597fc7, 0xc6e00bf3, 0xd5a79147, 0x06ca6351, 0x14292967,
   0x27b70a85, 0x2e1b2138, 0x4d2c6dfc, 0x53380d13, 0x650a7354, 0x766a0abb, 0x81c2c92e, 0x92722c85,
   0xa2bfe8a1, 0xa81a664b, 0xc24b8b70, 0xc76c51a3, 0xd192e819, 0xd6990624, 0xf40e3585, 0x106aa070,
   0x19a4c116, 0x1e376c08, 0x2748774c, 0x34b0bcb5, 0x391c0cb3, 0x4ed8aa4a, 0x5b9cca4f, 0x682e6ff3,
   0x748f82ee, 0x78a5636f, 0x84c87814, 0x8cc70208, 0x90befffa, 0xa4506ceb, 0xbef9a3f7, 0xc67178f2]

/-- Truncation to 32 bits. -/
def w32 (x : Nat) : Nat := x % 4294967296

/-- Rotation of a 32-bit word to the right. -/
def rotr (x n : Nat) : Nat := w32 ((x >>> n) ||| (x <<< (32 - n)))

/-- Padding: the byte 0x80, zeros up to 56 modulo 64, and the bit length as
eight big-endian bytes. -/
def pad (msg : List Nat) : List Nat :=
  let len := msg.length
  let zeros := (55 + 64 - len % 64) % 64
  msg ++ [0x80] ++ List.replicate zeros 0 ++
    (List.range 8).map (fun i => ((len * 8) >>> (8 * (7 - i))) % 256)

/-- The first `k` blocks of `n` bytes. -/
def chunks (n : Nat) : Nat → List Nat → List (List Nat)
  | 0, _ => []
  | k + 1, l => l.take n :: chunks n k (l.drop n)

/-- Big-endian word `i` of a block. -/
def word (b : List Nat) (i : Nat) : Nat :=
  (b.getD (4 * i) 0 % 256) <<< 24 ||| (b.getD (4 * i + 1) 0 % 256) <<< 16 |||
  (b.getD (4 * i + 2) 0 % 256) <<< 8 ||| (b.getD (4 * i + 3) 0 % 256)

/-- Message schedule of a block: 64 words. -/
def schedule (block : List Nat) : List Nat :=
  (List.range 48).foldl (fun w t =>
    let i := t + 16
    let v1 := w.getD (i - 2) 0
    let v2 := w.getD (i - 15) 0
    let t1 := rotr v1 17 ^^^ rotr v1 19 ^^^ (v1 >>> 10)
    let t2 := rotr v2 7 ^^^ rotr v2 18 ^^^ (v2 >>> 3)
    w ++ [w32 (t1 + w.getD (i - 7) 0 + t2 + w.getD (i - 16) 0)])
    ((List.range 16).map (word block))

/-- The eight working words. -/
structure St where
  a : Nat
  b : Nat
  c : Nat
  d : Nat
  e : Nat
  f : Nat
  g : Nat
  h : Nat

def round (w : List Nat) (s : St) (i : Nat) : St :=
  let t1 := s.h + (rotr s.e 6 ^^^ rotr s.e 11 ^^^ rotr s.e 25) +
    ((s.e &&& s.f) ^^^ ((4294967295 - s.e) &&& s.g)) + K.getD i 0 + w.getD i 0
  let t2 := (rotr s.a 2 ^^^ rotr s.a 13 ^^^ rotr s.a 22) +
    ((s.a &&& s.b) ^^^ (s.a &&& s.c) ^^^ (s.b &&& s.c))
  { a := w32 (t1 + t2), b := s.a, c := s.b, d := s.c, e := w32 (s.d + t1), f := s.e, g := s.f,
    h := s.g }

def block (s : St) (p : List Nat) : St :=
  let w := schedule p
  let r := (List.range 64).foldl (round w) s
  { a := w32 (s.a + r.a), b := w32 (s.b + r.b), c := w32 (s.c + r.c), d := w32 (s.d + r.d),
    e := w32 (s.e + r.e), f := w32 (s.f + r.f), g := w32 (s.g + r.g), h := w32 (s.h + r.h) }

/-- Big-endian bytes of a 32-bit word. -/
def bytes (x : Nat) : List Nat := [(x >>> 24) % 256, (x >>> 16) % 256, (x >>> 8) % 256, x % 256]

/-- Go `sha256.Sum256`: the digest as 32 bytes; a byte is a natural number
taken modulo 256. -/
def Sum256 (data : List Nat) : List Nat :=
  let p := pad data
  let s := (chunks 64 (p.length / 64) p).foldl block
    ⟨0x6a09e667, 0xbb67ae85, 0x3c6ef372, 0xa54ff53a, 0x510e527f, 0x9b05688c, 0x1f83d9ab,
     0x5be0cd19⟩
  bytes s.a ++ bytes s.b ++ bytes s.c ++ bytes s.d ++ bytes s.e ++ bytes s.f ++ bytes s.g ++
    bytes s.h

end sha256

namespace utils

def ToPtr {α : Type} (v : α) : Option α := some v

/-- The hash of an object.  The parameter `Marshal` is `json.Marshal` on the
objects of type `α`, giving the Go pair of the bytes and the error; the error
is dropped, as in `data, _ := json.Marshal(object)`. -/
def GenHash {α : Type} (Marshal : α → List Nat × error) (object : α) : String :=
  let data := (Marshal object).1
  let hash := sha256.Sum256 data
  hex.EncodeToString hash

def IgnoreConflict (err : error) : error :=
  if apierrors.IsConflict err then none
  else err

def IgnoreAlreadyExists (err : error) : error :=
  if apierrors.IsAlreadyExists err then none
  else err

end utils

/-- Functions and constants that `sync_secret.go` takes from packages `utils`
and `common` and whose bodies are missing.  `GenerateSSHKeyPair` is the
outcome of the one call the builder makes: the private and the public key, or
an error. -/
structure SyncDeps where
  IsDistributed : juicefsiov1.Sync → Bool
  GenerateSSHKeyPair : Except GoError (String × String)
  GenSyncSecretName : String → String
  GroupVersion : String
  KindSync : String

/-! ## Package `builder` (`pod.go`) -/

namespace builder

open juicefsiov1

def secretKeys : List String :=
  ["token", "access-key", "access-key2", "bucket", "bucket2", "subdir",
   "secret-key", "secret-key2"]

def secretStrippedEnvs : List String := ["token", "secret-key", "secret-key2"]

def secretStrippedEnvMap : Map :=
  [("token", "TOKEN"), ("secret-key", "SECRET_KEY"), ("secret-key2", "SECRET_KEY_2")]

def secretStrippedEnvOptional : List (String × Bool) := [("secret-key2", true)]

structure PodBuilder where
  volName : String
  cg : CacheGroup
  node : String
  spec : CacheGroupWorkerTemplate
  secretData : Map
  initConfig : String
  deriving DecidableEq, Repr

def NewPodBuilder (U : Utils) (cg : CacheGroup) (secret : corev1.Secret) (node : String)
    (spec : CacheGroupWorkerTemplate) : PodBuilder :=
  let secretData := U.ParseSecret secret
  let initconfig :=
    match Map.get secretData "initconfig" with
    | some v => if v ≠ "" then v else ""
    | none => ""
  { secretData := secretData
    volName := Map.index secretData "name"
    cg := cg
    node := node
    spec := spec
    initConfig := initconfig }

def GenCacheGroupName (cg : CacheGroup) : String :=
  if cg.Spec.CacheGroup ≠ "" then cg.Spec.CacheGroup
  else cg.Namespace ++ "-" ++ cg.Name

def newBasicPod (cg : CacheGroup) (nodeName : String) : corev1.Pod :=
  let workerName := common.GenWorkerName cg.Name nodeName
  { ObjectMeta :=
      { Name := workerName
        Namespace := cg.Namespace
        Annotations := []
        Labels := [(common.LabelCacheGroup, cg.Name), (common.LabelWorker, common.LabelWorkerValue)]
        OwnerReferences :=
          [{ APIVersion := cg.APIVersion
             Kind := cg.Kind
             Name := cg.Name
             UID := cg.UID
             Controller := utils.ToPtr true }] }
    Spec :=
      { Containers := [{ SecurityContext := some { Privileged := utils.ToPtr true } }]
        NodeName := nodeName } }

/-- One iteration of the loop over `secretStrippedEnvs` in `genEnvs`. -/
def genEnvsStep (p : PodBuilder) (envs : List corev1.EnvVar) (k : String) : List corev1.EnvVar :=
  let isOptional := (List.lookup k secretStrippedEnvOptional).isSome
  envs ++
    [{ Name := Map.index secretStrippedEnvMap k
       ValueFrom := some
         { SecretKeyRef := some
             { Key := k
               Optional := some isOptional
               LocalObjectReference := { Name := p.cg.Spec.SecretRef.Name } } } }]

def genEnvs (p : PodBuilder) : List corev1.EnvVar :=
  let envs : List corev1.EnvVar := []
  let envs := secretStrippedEnvs.foldl (genEnvsStep p) envs
  envs ++ p.spec.Env.toList

/-- One iteration of the loop over `secretKeys` in `genAuthCmds`. -/
def genAuthCmdsKeyStep (p : PodBuilder) (authCmds : List String) (key : String) : List String :=
  match Map.get p.secretData key with
  | some value =>
    match Map.get secretStrippedEnvMap key with
    | some strippedKey => authCmds ++ ["--" ++ key, "$\x7b" ++ strippedKey ++ "\x7d"]
    | none => authCmds ++ ["--" ++ key, value]
  | none => authCmds

/-- One iteration of the loop over the parsed `format-options` in
`genAuthCmds`. -/
def genAuthCmdsOptStep (authCmds : List String) (opt : String × String) : List String :=
  if opt.2 ≠ "" then authCmds ++ ["--" ++ opt.1, opt.2]
  else authCmds ++ ["--" ++ opt.1]

def genAuthCmds (U : Utils) (p : PodBuilder) : List String :=
  if p.initConfig ≠ "" then
    let conf := p.volName ++ ".conf"
    ["cp", "/etc/juicefs/" ++ conf, "/root/.juicefs"]
  else
    let authCmds := [common.JuiceFSBinary, "auth", p.volName]
    let authCmds := secretKeys.foldl (genAuthCmdsKeyStep p) authCmds
    match Map.get p.secretData "format-options" with
    | some value =>
      let formatOptions := U.ParseOptions (some (strings.Split value ','))
      formatOptions.foldl genAuthCmdsOptStep authCmds
    | none => authCmds

/-- One iteration of the loop over the parsed mount options in
`genCommands`; the state is `(opts, cacheDirs)`. -/
def genCommandsStep (st : List String × List String) (opt : String × String) :
    List String × List String :=
  if opt.1 = "cache-dir" then
    if opt.2 = "" then st
    else (st.1, strings.Split opt.2 ':')
  else if opt.2 ≠ "" then
    (st.1 ++ [strings.TrimSpace opt.1 ++ "=" ++ strings.TrimSpace opt.2], st.2)
  else
    (st.1 ++ [strings.TrimSpace opt.1], st.2)

/-- The slice `opts` of `genCommands` as it is handed to `strings.Join`:
the part of the function body from `opts := []string{...}` to the append of
the cache-dir entry. -/
def genCommandsOpts (U : Utils) (p : PodBuilder) : List String :=
  let cacheGroup := GenCacheGroupName p.cg
  let opts := ["foreground", "cache-group=" ++ cacheGroup]
  let cacheDirs : List String := []
  let parsedOpts := U.ParseOptions p.spec.Opts
  let st := parsedOpts.foldl genCommandsStep (opts, cacheDirs)
  let opts := st.1
  let cacheDirs := st.2
  let cacheDirs := if cacheDirs.length = 0 then cacheDirs ++ ["/var/jfsCache"] else cacheDirs
  opts ++ ["cache-dir=" ++ strings.Join cacheDirs ":"]

def genCommands (U : Utils) (p : PodBuilder) : List String :=
  let authCmds := genAuthCmds U p
  let mountCmds := ["exec", common.JuiceFsMountBinary, p.volName, common.MountPoint]
  let opts := genCommandsOpts U p
  let mountCmds := mountCmds ++ ["-o", strings.Join opts ","]
  ["sh", "-c", strings.Join authCmds " " ++ "\n" ++ strings.Join mountCmds " "]

/-- The receiver is updated in place in Go; here the new receiver is
returned. -/
def genInitConfigVolumes (p : PodBuilder) : PodBuilder :=
  if p.initConfig = "" then p
  else
    let volume : corev1.Volume :=
      { Name := "init-config"
        VolumeSource :=
          { Secret := some
              { SecretName := p.cg.Spec.SecretRef.Name
                Items := [{ Key := "initconfig", Path := p.volName ++ ".conf" }] } } }
    let p := { p with spec := { p.spec with Volumes := Slice.append p.spec.Volumes volume } }
    let volumeMount : corev1.VolumeMount := { Name := "init-config", MountPath := "/etc/juicefs" }
    { p with spec := { p.spec with VolumeMounts := Slice.append p.spec.VolumeMounts volumeMount } }

/-- Assignment through `worker.Spec.Containers[0]`. -/
def setContainer0 (worker : corev1.Pod) (f : corev1.Container → corev1.Container) : corev1.Pod :=
  { worker with Spec := { worker.Spec with Containers := worker.Spec.Containers.modifyHead f } }

/-- Returns the worker and the receiver as the call leaves it. -/
def NewCacheGroupWorker (U : Utils) (p : PodBuilder) : corev1.Pod × PodBuilder :=
  let worker := newBasicPod p.cg p.node
  let p := genInitConfigVolumes p
  let spec := p.spec
  let worker :=
    match spec.HostNetwork with
    | some b => { worker with Spec := { worker.Spec with HostNetwork := b } }
    | none => { worker with Spec := { worker.Spec with HostNetwork := true } }
  let worker :=
    match spec.DNSPolicy with
    | some d => { worker with Spec := { worker.Spec with DNSPolicy := d } }
    | none => worker
  let worker := { worker with Spec := { worker.Spec with Tolerations := spec.Tolerations } }
  let worker := { worker with Spec := { worker.Spec with SchedulerName := spec.SchedulerName } }
  let worker := { worker with Spec := { worker.Spec with ServiceAccountName := spec.ServiceAccountName } }
  let worker := { worker with Spec := { worker.Spec with Volumes := spec.Volumes } }
  let worker := setContainer0 worker (fun c => { c with Image := spec.Image })
  let worker := setContainer0 worker (fun c => { c with Name := common.WorkerContainerName })
  let worker := setContainer0 worker (fun c => { c with LivenessProbe := spec.LivenessProbe })
  let worker := setContainer0 worker (fun c => { c with ReadinessProbe := spec.ReadinessProbe })
  let worker := setContainer0 worker (fun c => { c with StartupProbe := spec.StartupProbe })
  let worker := setContainer0 worker (fun c => { c with VolumeMounts := spec.VolumeMounts })
  let worker := setContainer0 worker (fun c => { c with VolumeDevices := spec.VolumeDevices })
  let worker :=
    match spec.SecurityContext with
    | some sc => setContainer0 worker (fun c => { c with SecurityContext := some sc })
    | none => setContainer0 worker (fun c =>
        { c with SecurityContext := some { Privileged := utils.ToPtr true } })
  let worker :=
    match spec.Lifecycle with
    | some lc => setContainer0 worker (fun c => { c with Lifecycle := some lc })
    | none =>
      let lifecycle : corev1.Lifecycle :=
        { PreStop := some
            { Exec := some { Command := ["sh", "-c", "umount " ++ common.MountPoint] } } }
      setContainer0 worker (fun c => { c with Lifecycle := some lifecycle })
  let worker :=
    match spec.Resources with
    | some r => setContainer0 worker (fun c => { c with Resources := r })
    | none => setContainer0 worker (fun c => { c with Resources := common.DefaultResources })
  let worker := setContainer0 worker (fun c => { c with Env := genEnvs p })
  let worker := setContainer0 worker (fun c => { c with Command := genCommands U p })
  (worker, p)

def MergeCacheGrouopWorkerTemplate (template : CacheGroupWorkerTemplate)
    (overwrite : CacheGroupWorkerOverwrite) : CacheGroupWorkerTemplate :=
  let template := if overwrite.ServiceAccountName ≠ "" then
    { template with ServiceAccountName := overwrite.ServiceAccountName } else template
  let template := if overwrite.HostNetwork ≠ none then
    { template with HostNetwork := overwrite.HostNetwork } else template
  let template := if overwrite.SchedulerName ≠ "" then
    { template with SchedulerName := overwrite.SchedulerName } else template
  let template := if overwrite.Tolerations ≠ none then
    { template with Tolerations := overwrite.Tolerations } else template
  let template := if overwrite.Image ≠ "" then
    { template with Image := overwrite.Image } else template
  let template := if overwrite.Env ≠ none then
    { template with Env := overwrite.Env } else template
  let template := if overwrite.Resources ≠ none then
    { template with Resources := overwrite.Resources } else template
  let template := if overwrite.LivenessProbe ≠ none then
    { template with LivenessProbe := overwrite.LivenessProbe } else template
  let template := if overwrite.ReadinessProbe ≠ none then
    { template with ReadinessProbe := overwrite.ReadinessProbe } else template
  let template := if overwrite.StartupProbe ≠ none then
    { template with StartupProbe := overwrite.StartupProbe } else template
  let template := if overwrite.SecurityContext ≠ none then
    { template with SecurityContext := overwrite.SecurityContext } else template
  let template := if overwrite.Lifecycle ≠ none then
    { template with Lifecycle := overwrite.Lifecycle } else template
  let template := if overwrite.VolumeMounts ≠ none then
    { template with VolumeMounts := overwrite.VolumeMounts } else template
  let template := if overwrite.VolumeDevices ≠ none then
    { template with VolumeDevices := overwrite.VolumeDevices } else template
  let template := if overwrite.Volumes ≠ none then
    { template with Volumes := overwrite.Volumes } else template
  let template := if overwrite.Opts ≠ none then
    { template with Opts := overwrite.Opts } else template
  let template := if overwrite.DNSPolicy ≠ none then
    { template with DNSPolicy := overwrite.DNSPolicy } else template
  template

/-! ### `sync_secret.go` -/

/-- The nil map returned for a nil sink is the empty map: ranging over it
does nothing. -/
def genJuiceFSSecretData (juicefs : Option SyncSinkJuiceFS) (suffix : String) : Map :=
  match juicefs with
  | none => []
  | some juicefs =>
    let data : Map := []
    let data := if juicefs.Token.Value ≠ "" then
      Map.set data (fmt.Sprintf "%s_TOKEN" [suffix]) juicefs.Token.Value else data
    let data := if juicefs.AccessKey.Value ≠ "" then
      Map.set data (fmt.Sprintf "%s_ACCESS_KEY" [suffix]) juicefs.AccessKey.Value else data
    let data := if juicefs.SecretKey.Value ≠ "" then
      Map.set data (fmt.Sprintf "%s_SECRET_KEY" [suffix]) juicefs.SecretKey.Value else data
    data

def genExternalSecretData (external : Option SyncSinkExternal) (suffix : String) : Map :=
  match external with
  | none => []
  | some external =>
    let data : Map := []
    let data := if external.AccessKey.Value ≠ "" then
      Map.set data (fmt.Sprintf "%s_ACCESS_KEY" [suffix]) external.AccessKey.Value else data
    let data := if external.SecretKey.Value ≠ "" then
      Map.set data (fmt.Sprintf "%s_SECRET_KEY" [suffix]) external.SecretKey.Value else data
    data

/-- The loop `for k, b := range src` with the body `data[k] = b`. -/
def copyInto (data : Map) (src : Map) : Map :=
  src.foldl (fun data e => Map.set data e.1 e.2) data

def NewSyncSecret (D : SyncDeps) (sync : Sync) : Except GoError corev1.Secret :=
  let secretName := D.GenSyncSecretName sync.Name
  let data : Map := []
  let keys : Except GoError Map :=
    if D.IsDistributed sync then
      match D.GenerateSSHKeyPair with
      | Except.error err => Except.error err
      | Except.ok (id_rsa, id_rsa_pub) =>
        let data := Map.set data "id_rsa" id_rsa
        let data := Map.set data "id_rsa.pub" id_rsa_pub
        Except.ok data
    else Except.ok data
  match keys with
  | Except.error err => Except.error err
  | Except.ok data =>
    let data := copyInto data (genJuiceFSSecretData sync.Spec.From.JuiceFS "JUICEFS_FROM")
    let data := copyInto data (genJuiceFSSecretData sync.Spec.To.JuiceFS "JUICEFS_TO")
    let data := copyInto data (genExternalSecretData sync.Spec.From.External "EXTERNAL_FROM")
    let data := copyInto data (genExternalSecretData sync.Spec.To.External "EXTERNAL_TO")
    let secret : corev1.Secret :=
      { ObjectMeta :=
          { Name := secretName, Namespace := sync.Namespace, Annotations := [], Labels := [],
            OwnerReferences := [] }
        StringData := data }
    let secret := { secret with ObjectMeta := { secret.ObjectMeta with OwnerReferences :=
      [{ APIVersion := D.GroupVersion, Kind := D.KindSync, Name := sync.Name, UID := sync.UID,
         Controller := utils.ToPtr true }] } }
    Except.ok secret

end builder

/-! ## Test fixtures -/

namespace fixture

open juicefsiov1 builder

/-- Modelled from the spec: instances of `utils.ParseSecret` and
`utils.ParseOptions`, whose bodies are missing, for the concrete examples
only.  The secret's data is the credential; each option is a `k[=v]` pair cut
at its first `=`, with whitespace trimmed from both halves. -/
def U : Utils :=
  { ParseSecret := fun s => s.Data
    ParseOptions := fun opts => opts.toList.map (fun o =>
      let t := (strings.TrimSpace o).data
      (strings.TrimSpace (String.mk (t.takeWhile (fun c => c != '='))),
       strings.TrimSpace (String.mk ((t.dropWhile (fun c => c != '=')).drop 1)))) }

def cg1 : CacheGroup :=
  { APIVersion := "juicefs.io/v1", Kind := "CacheGroup", Name := "cg1", Namespace := "ns1",
    UID := "u-1", Spec := { CacheGroup := "", SecretRef := { Name := "jfs-secret" } } }

def cgProd : CacheGroup :=
  { cg1 with Spec := { CacheGroup := "prod", SecretRef := { Name := "jfs-secret" } } }

def secret1 : corev1.Secret :=
  { Data := [("name", "myfs"), ("token", "T"), ("access-key", "A"), ("secret-key", "S")] }

def baseTemplate : CacheGroupWorkerTemplate :=
  { Image := "juicedata/mount:v1", Opts := some ["a=1", "b=2"] }

def fullOverwrite : CacheGroupWorkerOverwrite :=
  { ServiceAccountName := "sa"
    HostNetwork := some false
    SchedulerName := "sched"
    Tolerations := some []
    Image := "juicedata/mount:v2"
    Env := some [{ Name := "X", Value := "1" }]
    Resources := some ⟨[("cpu", "2")], [("cpu", "1")]⟩
    LivenessProbe := some ⟨none, 10⟩
    ReadinessProbe := some ⟨none, 5⟩
    StartupProbe := some ⟨none, 1⟩
    SecurityContext := some {}
    Lifecycle := some {}
    VolumeMounts := some []
    VolumeDevices := some []
    Volumes := some []
    Opts := some ["a=9"]
    DNSPolicy := some "ClusterFirst" }

/-- Modelled from the spec: instances of the missing helpers of
`sync_secret.go` for the concrete examples only.  A sync is distributed when
its name is `dist`; the key pair is a fixed pair of strings. -/
def D : SyncDeps :=
  { IsDistributed := fun sync => sync.Name = "dist"
    GenerateSSHKeyPair := Except.ok ("PRIVATE", "PUBLIC")
    GenSyncSecretName := fun name => "juicefs-sync-" ++ name ++ "-secret"
    GroupVersion := "juicefs.io/v1"
    KindSync := "Sync" }

def sync1 : Sync :=
  { Name := "dist", Namespace := "ns1", UID := "u-2"
    Spec :=
      { From := { External := some { AccessKey := ⟨"AK"⟩, SecretKey := ⟨""⟩ } }
        To := { JuiceFS := some { Token := ⟨"T"⟩ } } } }

/-- The secret expected for `sync1`. -/
def syncSecret1 : corev1.Secret :=
  { ObjectMeta :=
      { Name := "juicefs-sync-dist-secret", Namespace := "ns1", Annotations := [], Labels := [],
        OwnerReferences := [⟨"juicefs.io/v1", "Sync", "dist", "u-2", some true⟩] }
    StringData :=
      [("id_rsa", "PRIVATE"), ("id_rsa.pub", "PUBLIC"), ("JUICEFS_TO_TOKEN", "T"),
       ("EXTERNAL_FROM_ACCESS_KEY", "AK")] }

/-- A stand-in for `json.Marshal` in the concrete examples: an object is
either unserializable (`none`) or a text whose serialization is its character
codes. -/
def Marshal (object : Option String) : List Nat × error :=
  match object with
  | none => ([], some (GoError.other "json: unsupported type"))
  | some text => (text.data.map Char.toNat, none)

end fixture

/-! ## Closed forms used in the statements -/

namespace spec

/-- Flags of one secret key in the auth command: nothing when the key is
absent, otherwise the flag and either the environment reference (for the
stripped keys) or the credential's value. -/
def authFlag (cred : Map) (key : String) : List String :=
  match Map.get cred key with
  | none => []
  | some v =>
    ["--" ++ key,
     if key = "token" then "$\x7bTOKEN\x7d"
     else if key = "secret-key" then "$\x7bSECRET_KEY\x7d"
     else if key = "secret-key2" then "$\x7bSECRET_KEY_2\x7d"
     else v]

/-- Flags of one parsed `format-options` entry. -/
def formatFlag (o : String × String) : List String :=
  if o.2 ≠ "" then ["--" ++ o.1, o.2] else ["--" ++ o.1]

/-- The CLI-flag form of the auth command for a credential. -/
def authCli (U : Utils) (cred : Map) : List String :=
  ["/usr/bin/juicefs", "auth", Map.index cred "name"] ++
    ["token", "access-key", "access-key2", "bucket", "bucket2", "subdir", "secret-key",
      "secret-key2"].flatMap (authFlag cred) ++
    (match Map.get cred "format-options" with
     | none => []
     | some value => (U.ParseOptions (some (strings.Split value ','))).flatMap formatFlag)

/-- Rendering of one user mount option: `k=v` when the value is non-empty,
`k` otherwise, both trimmed. -/
def optEntry (o : String × String) : String :=
  if o.2 ≠ "" then strings.TrimSpace o.1 ++ "=" ++ strings.TrimSpace o.2
  else strings.TrimSpace o.1

/-- Entries of the user's options other than cache-dir, in their order. -/
def userOptEntries (parsed : List (String × String)) : List String :=
  (parsed.filter (fun o => o.1 ≠ "cache-dir")).map optEntry

/-- Value of the last user option with key `cache-dir` and a non-empty
value. -/
def lastCacheDir (parsed : List (String × String)) : Option String :=
  ((parsed.filter (fun o => o.1 = "cache-dir" ∧ o.2 ≠ "")).getLast?).map Prod.snd

/-- The cache-dir entry: the user's value, or the default. -/
def cacheDirEntry (parsed : List (String × String)) : String :=
  match lastCacheDir parsed with
  | some v => "cache-dir=" ++ v
  | none => "cache-dir=/var/jfsCache"

/-- Key of an entry of the mount option list: the text before its first
`=`. -/
def optKey (e : String) : String := String.mk (e.data.takeWhile (fun c => c != '='))

/-- Every field of the override is unset. -/
abbrev overwriteUnset (o : juicefsiov1.CacheGroupWorkerOverwrite) : Prop :=
  o.ServiceAccountName = "" ∧
  o.HostNetwork = none ∧
  o.SchedulerName = "" ∧
  o.Tolerations = none ∧
  o.Image = "" ∧
  o.Env = none ∧
  o.Resources = none ∧
  o.LivenessProbe = none ∧
  o.ReadinessProbe = none ∧
  o.StartupProbe = none ∧
  o.SecurityContext = none ∧
  o.Lifecycle = none ∧
  o.VolumeMounts = none ∧
  o.VolumeDevices = none ∧
  o.Volumes = none ∧
  o.Opts = none ∧
  o.DNSPolicy = none

/-- Every field of the override is set. -/
abbrev overwriteFull (o : juicefsiov1.CacheGroupWorkerOverwrite) : Prop :=
  o.ServiceAccountName ≠ "" ∧
  o.HostNetwork ≠ none ∧
  o.SchedulerName ≠ "" ∧
  o.Tolerations ≠ none ∧
  o.Image ≠ "" ∧
  o.Env ≠ none ∧
  o.Resources ≠ none ∧
  o.LivenessProbe ≠ none ∧
  o.ReadinessProbe ≠ none ∧
  o.StartupProbe ≠ none ∧
  o.SecurityContext ≠ none ∧
  o.Lifecycle ≠ none ∧
  o.VolumeMounts ≠ none ∧
  o.VolumeDevices ≠ none ∧
  o.Volumes ≠ none ∧
  o.Opts ≠ none ∧
  o.DNSPolicy ≠ none

/-- The string data of the sync secret, given the entries `keys` written
before the sinks are copied in. -/
def syncData (sync : juicefsiov1.Sync) (keys : Map) : Map :=
  builder.copyInto
    (builder.copyInto
      (builder.copyInto
        (builder.copyInto keys (builder.genJuiceFSSecretData sync.Spec.From.JuiceFS "JUICEFS_FROM"))
        (builder.genJuiceFSSecretData sync.Spec.To.JuiceFS "JUICEFS_TO"))
      (builder.genExternalSecretData sync.Spec.From.External "EXTERNAL_FROM"))
    (builder.genExternalSecretData sync.Spec.To.External "EXTERNAL_TO")

/-- The keys a sync secret can hold. -/
def syncSecretKeys : List String :=
  ["JUICEFS_FROM_TOKEN", "JUICEFS_FROM_ACCESS_KEY", "JUICEFS_FROM_SECRET_KEY",
   "JUICEFS_TO_TOKEN", "JUICEFS_TO_ACCESS_KEY", "JUICEFS_TO_SECRET_KEY",
   "EXTERNAL_FROM_ACCESS_KEY", "EXTERNAL_FROM_SECRET_KEY",
   "EXTERNAL_TO_ACCESS_KEY", "EXTERNAL_TO_SECRET_KEY", "id_rsa", "id_rsa.pub"]

/-- A field of a sync sink as a secret entry: present when non-empty. -/
def nonEmpty (v : String) : Option String := if v ≠ "" then some v else none

/-- The worker built for a CacheGroup, credential, node and template:
`NewPodBuilder` followed by `NewCacheGroupWorker`. -/
abbrev builtWorker (U : Utils) (cg : juicefsiov1.CacheGroup) (secret : corev1.Secret)
    (node : String) (tpl : juicefsiov1.CacheGroupWorkerTemplate) : corev1.Pod :=
  (builder.NewCacheGroupWorker U (builder.NewPodBuilder U cg secret node tpl)).1

end spec

/-! ## Auxiliary lemmas -/

theorem foldl_append_flatMap {α β : Type} (step : List β → α → List β) (g : α → List β)
    (xs : List α) (h : ∀ x ∈ xs, ∀ acc, step acc x = acc ++ g x) (acc : List β) :
    xs.foldl step acc = acc ++ xs.flatMap g := by
  induction xs generalizing acc with
  | nil => simp
  | cons x xs ih =>
    have hx := h x (List.mem_cons_self x xs)
    have hxs : ∀ y ∈ xs, ∀ acc, step acc y = acc ++ g y :=
      fun y hy => h y (List.mem_cons_of_mem x hy)
    simp [List.foldl_cons, hx, ih hxs, List.flatMap_cons, List.append_assoc]

theorem genAuthCmdsKeyStep_eq (p : builder.PodBuilder) (key : String)
    (hk : key ∈ builder.secretKeys) (acc : List String) :
    builder.genAuthCmdsKeyStep p acc key = acc ++ spec.authFlag p.secretData key := by
  simp only [builder.secretKeys, List.mem_cons, List.mem_singleton, List.not_mem_nil,
    or_false] at hk
  unfold builder.genAuthCmdsKeyStep spec.authFlag
  generalize Map.get p.secretData key = r
  rcases hk with h | h | h | h | h | h | h | h <;> subst h <;> cases r <;>
    simp [builder.secretStrippedEnvMap, Map.get, List.lookup]

theorem NewPodBuilder_initConfig_empty (U : Utils) (cg : juicefsiov1.CacheGroup)
    (secret : corev1.Secret) (node : String) (tpl : juicefsiov1.CacheGroupWorkerTemplate)
    (h : Map.get (U.ParseSecret secret) "initconfig" = none ∨
      Map.get (U.ParseSecret secret) "initconfig" = some "") :
    (builder.NewPodBuilder U cg secret node tpl).initConfig = "" := by
  rcases h with h | h <;> simp [builder.NewPodBuilder, h]

theorem genAuthCmds_cli (U : Utils) (p : builder.PodBuilder) (h : p.initConfig = "")
    (hv : p.volName = Map.index p.secretData "name") :
    builder.genAuthCmds U p = spec.authCli U p.secretData := by
  unfold builder.genAuthCmds spec.authCli
  simp only [h, ne_eq, not_true_eq_false, if_false]
  rw [foldl_append_flatMap (builder.genAuthCmdsKeyStep p) (spec.authFlag p.secretData)
    builder.secretKeys (fun x hx acc => genAuthCmdsKeyStep_eq p x hx acc)]
  cases hf : Map.get p.secretData "format-options" with
  | none => simp [builder.secretKeys, common.JuiceFSBinary, hv]
  | some value =>
    simp only []
    rw [foldl_append_flatMap builder.genAuthCmdsOptStep spec.formatFlag _
      (fun x _ acc => by
        unfold builder.genAuthCmdsOptStep spec.formatFlag
        split <;> rfl)]
    simp [builder.secretKeys, common.JuiceFSBinary, hv]

theorem splitChars_ne_nil (sep : Char) (l : List Char) : strings.splitChars sep l ≠ [] := by
  induction l with
  | nil => simp [strings.splitChars]
  | cons c cs ih =>
    unfold strings.splitChars
    split
    · simp
    · split <;> simp

theorem Join_splitChars (sep : Char) (l : List Char) :
    (strings.Join ((strings.splitChars sep l).map String.mk) (String.mk [sep])).data = l := by
  induction l with
  | nil => simp [strings.splitChars, strings.Join]
  | cons c cs ih =>
    unfold strings.splitChars
    by_cases hc : c = sep
    · simp only [hc, if_true]
      cases hs : strings.splitChars sep cs with
      | nil => exact absurd hs (splitChars_ne_nil sep cs)
      | cons h t =>
        rw [hs] at ih
        simp only [List.map_cons, strings.Join, String.data_append] at ih ⊢
        rw [ih]
        rfl
    · simp only [hc, if_false]
      cases hs : strings.splitChars sep cs with
      | nil => exact absurd hs (splitChars_ne_nil sep cs)
      | cons h t =>
        rw [hs] at ih
        cases t with
        | nil =>
          simp only [List.map_cons, List.map_nil, strings.Join] at ih ⊢
          simp only [← ih]
        | cons t1 t2 =>
          simp only [List.map_cons, strings.Join, String.data_append] at ih ⊢
          rw [← ih]
          rfl

theorem Join_Split (v : String) : strings.Join (strings.Split v ':') ":" = v := by
  apply String.ext
  exact Join_splitChars ':' v.data

theorem Split_length_ne_zero (v : String) (sep : Char) : (strings.Split v sep).length ≠ 0 := by
  unfold strings.Split
  rw [List.length_map]
  intro h
  exact splitChars_ne_nil sep v.data (List.length_eq_zero.mp h)

theorem foldl_genCommandsStep (parsed : List (String × String)) (opts cds : List String) :
    parsed.foldl builder.genCommandsStep (opts, cds) =
      (opts ++ spec.userOptEntries parsed,
       match spec.lastCacheDir parsed with
       | some v => strings.Split v ':'
       | none => cds) := by
  induction parsed using List.reverseRecOn with
  | nil => simp [spec.userOptEntries, spec.lastCacheDir]
  | append_singleton xs x ih =>
    rw [List.foldl_append, ih]
    simp only [List.foldl_cons, List.foldl_nil, builder.genCommandsStep]
    by_cases hk : x.1 = "cache-dir"
    · by_cases hv : x.2 = ""
      · simp [hk, hv, spec.userOptEntries, spec.lastCacheDir, List.filter_append]
      · simp [hk, hv, spec.userOptEntries, spec.lastCacheDir, List.filter_append]
    · by_cases hv : x.2 = ""
      · simp [hk, hv, spec.userOptEntries, spec.lastCacheDir, List.filter_append, spec.optEntry]
      · simp [hk, hv, spec.userOptEntries, spec.lastCacheDir, List.filter_append, spec.optEntry]

theorem genCommandsOpts_eq (U : Utils) (p : builder.PodBuilder) :
    builder.genCommandsOpts U p =
      ["foreground", "cache-group=" ++ builder.GenCacheGroupName p.cg] ++
        spec.userOptEntries (U.ParseOptions p.spec.Opts) ++
        [spec.cacheDirEntry (U.ParseOptions p.spec.Opts)] := by
  unfold builder.genCommandsOpts
  simp only [foldl_genCommandsStep, spec.cacheDirEntry]
  cases h : spec.lastCacheDir (U.ParseOptions p.spec.Opts) with
  | none => simp [strings.Join]
  | some v =>
    simp only [if_neg (Split_length_ne_zero v ':'), Join_Split]

theorem Join_mountCmds (vol opts : String) :
    strings.Join ["exec", common.JuiceFsMountBinary, vol, common.MountPoint, "-o", opts] " " =
      "exec /sbin/mount.juicefs " ++ vol ++ " /mnt/jfs -o " ++ opts := by
  apply String.ext
  simp only [strings.Join, String.data_append, common.JuiceFsMountBinary, common.MountPoint,
    List.append_assoc]
  rfl

theorem genCommands_eq (U : Utils) (p : builder.PodBuilder) :
    builder.genCommands U p =
      ["sh", "-c", strings.Join (builder.genAuthCmds U p) " " ++ "\n" ++
        ("exec /sbin/mount.juicefs " ++ p.volName ++ " /mnt/jfs -o " ++
          strings.Join (builder.genCommandsOpts U p) ",")] := by
  unfold builder.genCommands
  simp only [List.cons_append, List.nil_append, Join_mountCmds]

theorem genInitConfigVolumes_frame (p : builder.PodBuilder) :
    (builder.genInitConfigVolumes p).volName = p.volName ∧
    (builder.genInitConfigVolumes p).cg = p.cg ∧
    (builder.genInitConfigVolumes p).node = p.node ∧
    (builder.genInitConfigVolumes p).secretData = p.secretData ∧
    (builder.genInitConfigVolumes p).initConfig = p.initConfig ∧
    (builder.genInitConfigVolumes p).spec.Opts = p.spec.Opts ∧
    (builder.genInitConfigVolumes p).spec.Env = p.spec.Env := by
  unfold builder.genInitConfigVolumes
  split <;> simp

theorem genAuthCmds_congr (U : Utils) (p q : builder.PodBuilder) (h1 : q.volName = p.volName)
    (h2 : q.secretData = p.secretData) (h3 : q.initConfig = p.initConfig) :
    builder.genAuthCmds U q = builder.genAuthCmds U p := by
  unfold builder.genAuthCmds builder.genAuthCmdsKeyStep
  simp only [h1, h2, h3]

theorem genCommands_genInitConfigVolumes (U : Utils) (p : builder.PodBuilder) :
    builder.genCommands U (builder.genInitConfigVolumes p) = builder.genCommands U p := by
  obtain ⟨h1, h2, _, h4, h5, h6, _⟩ := genInitConfigVolumes_frame p
  unfold builder.genCommands builder.genCommandsOpts
  simp only [h1, h2, h6, genAuthCmds_congr U p _ h1 h4 h5]

theorem genEnvs_eq (p : builder.PodBuilder) :
    builder.genEnvs p =
      [{ Name := "TOKEN"
         ValueFrom := some ⟨some ⟨⟨p.cg.Spec.SecretRef.Name⟩, "token", some false⟩⟩ },
       { Name := "SECRET_KEY"
         ValueFrom := some ⟨some ⟨⟨p.cg.Spec.SecretRef.Name⟩, "secret-key", some false⟩⟩ },
       { Name := "SECRET_KEY_2"
         ValueFrom := some ⟨some ⟨⟨p.cg.Spec.SecretRef.Name⟩, "secret-key2", some true⟩⟩ }] ++
        p.spec.Env.toList := by
  rfl

theorem genEnvs_genInitConfigVolumes (p : builder.PodBuilder) :
    builder.genEnvs (builder.genInitConfigVolumes p) = builder.genEnvs p := by
  obtain ⟨_, h2, _, _, _, _, h7⟩ := genInitConfigVolumes_frame p
  rw [genEnvs_eq, genEnvs_eq, h2, h7]

/-- The worker as one record: every field of the pod that
`NewCacheGroupWorker` returns. -/
theorem NewCacheGroupWorker_fst (U : Utils) (p : builder.PodBuilder) :
    (builder.NewCacheGroupWorker U p).1 =
      { ObjectMeta := (builder.newBasicPod p.cg p.node).ObjectMeta
        Spec :=
          { Volumes := (builder.genInitConfigVolumes p).spec.Volumes
            Containers :=
              [{ Name := "juicefs-cg-worker"
                 Image := p.spec.Image
                 Command := builder.genCommands U p
                 Env := builder.genEnvs p
                 Resources := p.spec.Resources.getD common.DefaultResources
                 VolumeMounts := (builder.genInitConfigVolumes p).spec.VolumeMounts
                 VolumeDevices := p.spec.VolumeDevices
                 LivenessProbe := p.spec.LivenessProbe
                 ReadinessProbe := p.spec.ReadinessProbe
                 StartupProbe := p.spec.StartupProbe
                 Lifecycle := some (p.spec.Lifecycle.getD
                   { PreStop := some { Exec := some { Command := ["sh", "-c", "umount /mnt/jfs"] } } })
                 SecurityContext := some (p.spec.SecurityContext.getD { Privileged := some true }) }]
            ServiceAccountName := p.spec.ServiceAccountName
            NodeName := p.node
            HostNetwork := p.spec.HostNetwork.getD true
            DNSPolicy := p.spec.DNSPolicy.getD ""
            Tolerations := p.spec.Tolerations
            SchedulerName := p.spec.SchedulerName } } := by
  rw [← genCommands_genInitConfigVolumes U p, ← genEnvs_genInitConfigVolumes p]
  obtain ⟨pv, pcg, pn, ps, psd, pic⟩ := p
  obtain ⟨f1, f2, f3, f4, f5, f6, f7, f8, f9, f10, f11, f12, f13, f14, f15, f16, f17⟩ := ps
  unfold builder.NewCacheGroupWorker builder.genInitConfigVolumes
  by_cases h : pic = ""
  · simp only [h, if_true]
    cases f2 <;> cases f7 <;> cases f11 <;> cases f12 <;> cases f17 <;> rfl
  · simp only [h, if_false]
    cases f2 <;> cases f7 <;> cases f11 <;> cases f12 <;> cases f17 <;> rfl

theorem optKey_of_no_eq (k : String) (h : '=' ∉ k.data) : spec.optKey k = k := by
  unfold spec.optKey
  apply String.ext
  simp only
  rw [List.takeWhile_eq_self_iff]
  intro c hc
  simp only [bne_iff_ne, ne_eq]
  intro hce
  exact h (hce ▸ hc)

theorem optKey_pair (k v : String) (h : '=' ∉ k.data) : spec.optKey (k ++ "=" ++ v) = k := by
  unfold spec.optKey
  apply String.ext
  have hd : (k ++ "=" ++ v).data = k.data ++ ('=' :: v.data) := by
    simp only [String.data_append, List.append_assoc]
    rfl
  simp only [hd]
  rw [List.takeWhile_append_of_pos]
  · simp [List.takeWhile]
  · intro c hc
    simp only [bne_iff_ne, ne_eq]
    intro hce
    exact h (hce ▸ hc)

theorem optKey_optEntry (o : String × String) (ht : strings.TrimSpace o.1 = o.1)
    (he : '=' ∉ o.1.data) : spec.optKey (spec.optEntry o) = o.1 := by
  unfold spec.optEntry
  rw [ht]
  split
  · exact optKey_pair _ _ he
  · exact optKey_of_no_eq _ he

theorem optKey_cache_group (tag : String) : spec.optKey ("cache-group=" ++ tag) = "cache-group" :=
  optKey_pair "cache-group" tag (by decide)

theorem optKey_cache_dir (v : String) : spec.optKey ("cache-dir=" ++ v) = "cache-dir" :=
  optKey_pair "cache-dir" v (by decide)

theorem optKey_cacheDirEntry (parsed : List (String × String)) :
    spec.optKey (spec.cacheDirEntry parsed) = "cache-dir" := by
  unfold spec.cacheDirEntry
  split
  · exact optKey_cache_dir _
  · exact optKey_cache_dir "/var/jfsCache"

theorem filter_userOptEntries (parsed : List (String × String))
    (h : ∀ o ∈ parsed, strings.TrimSpace o.1 = o.1 ∧ '=' ∉ o.1.data) :
    (spec.userOptEntries parsed).filter (fun e => spec.optKey e = "cache-dir") = [] := by
  rw [List.filter_eq_nil_iff]
  intro e he
  simp only [spec.userOptEntries, List.mem_map, List.mem_filter] at he
  obtain ⟨o, ⟨ho, hk⟩, rfl⟩ := he
  rw [optKey_optEntry o (h o ho).1 (h o ho).2]
  simpa using hk

theorem GenWorkerName_eq (cgName nodeName : String) :
    common.GenWorkerName cgName nodeName = "juicefs-cg-worker-" ++ cgName ++ "-" ++ nodeName := by
  apply String.ext
  simp only [common.GenWorkerName, common.WorkerNamePrefix, fmt.Sprintf, String.data_append]
  simp [fmt.sprintfChars]

theorem NewPodBuilder_initConfig_ne (U : Utils) (cg : juicefsiov1.CacheGroup)
    (secret : corev1.Secret) (node : String) (tpl : juicefsiov1.CacheGroupWorkerTemplate)
    (v : String) (h : Map.get (U.ParseSecret secret) "initconfig" = some v) (hv : v ≠ "") :
    (builder.NewPodBuilder U cg secret node tpl).initConfig ≠ "" := by
  simp [builder.NewPodBuilder, h, hv]

theorem genAuthCmds_cp (U : Utils) (p : builder.PodBuilder) (h : p.initConfig ≠ "") :
    builder.genAuthCmds U p = ["cp", "/etc/juicefs/" ++ p.volName ++ ".conf", "/root/.juicefs"] := by
  unfold builder.genAuthCmds
  simp only [h, ne_eq, not_false_eq_true, if_true, String.append_assoc]

theorem Join_cp (vol : String) :
    strings.Join ["cp", "/etc/juicefs/" ++ vol ++ ".conf", "/root/.juicefs"] " " =
      "cp /etc/juicefs/" ++ vol ++ ".conf /root/.juicefs" := by
  apply String.ext
  simp only [strings.Join, String.data_append, List.append_assoc]
  rfl

/-- The merged template as one record. -/
theorem Merge_eq (t : juicefsiov1.CacheGroupWorkerTemplate)
    (o : juicefsiov1.CacheGroupWorkerOverwrite) :
    builder.MergeCacheGrouopWorkerTemplate t o =
      { ServiceAccountName := if o.ServiceAccountName ≠ "" then o.ServiceAccountName else t.ServiceAccountName
        HostNetwork := if o.HostNetwork ≠ none then o.HostNetwork else t.HostNetwork
        SchedulerName := if o.SchedulerName ≠ "" then o.SchedulerName else t.SchedulerName
        Tolerations := if o.Tolerations ≠ none then o.Tolerations else t.Tolerations
        Image := if o.Image ≠ "" then o.Image else t.Image
        Env := if o.Env ≠ none then o.Env else t.Env
        Resources := if o.Resources ≠ none then o.Resources else t.Resources
        LivenessProbe := if o.LivenessProbe ≠ none then o.LivenessProbe else t.LivenessProbe
        ReadinessProbe := if o.ReadinessProbe ≠ none then o.ReadinessProbe else t.ReadinessProbe
        StartupProbe := if o.StartupProbe ≠ none then o.StartupProbe else t.StartupProbe
        SecurityContext := if o.SecurityContext ≠ none then o.SecurityContext else t.SecurityContext
        Lifecycle := if o.Lifecycle ≠ none then o.Lifecycle else t.Lifecycle
        VolumeMounts := if o.VolumeMounts ≠ none then o.VolumeMounts else t.VolumeMounts
        VolumeDevices := if o.VolumeDevices ≠ none then o.VolumeDevices else t.VolumeDevices
        Volumes := if o.Volumes ≠ none then o.Volumes else t.Volumes
        Opts := if o.Opts ≠ none then o.Opts else t.Opts
        DNSPolicy := if o.DNSPolicy ≠ none then o.DNSPolicy else t.DNSPolicy } := by
  obtain ⟨t1, t2, t3, t4, t5, t6, t7, t8, t9, t10, t11, t12, t13, t14, t15, t16, t17⟩ := t
  have l1 : ∀ (c : Prop) [Decidable c] a1 a2 a3 a4 a5 a6 a7 a8 a9 a10 a11 a12 a13 a14 a15 a16 a17 v,
      (if c then juicefsiov1.CacheGroupWorkerTemplate.mk v a2 a3 a4 a5 a6 a7 a8 a9 a10 a11 a12 a13 a14 a15 a16 a17
        else juicefsiov1.CacheGroupWorkerTemplate.mk a1 a2 a3 a4 a5 a6 a7 a8 a9 a10 a11 a12 a13 a14 a15 a16 a17) =
      juicefsiov1.CacheGroupWorkerTemplate.mk (if c then v else a1) a2 a3 a4 a5 a6 a7 a8 a9 a10 a11 a12 a13 a14 a15 a16 a17 := by
    intros; split <;> rfl
  have l2 : ∀ (c : Prop) [Decidable c] a1 a2 a3 a4 a5 a6 a7 a8 a9 a10 a11 a12 a13 a14 a15 a16 a17 v,
      (if c then juicefsiov1.CacheGroupWorkerTemplate.mk a1 v a3 a4 a5 a6 a7 a8 a9 a10 a11 a12 a13 a14 a15 a16 a17
        else juicefsiov1.CacheGroupWorkerTemplate.mk a1 a2 a3 a4 a5 a6 a7 a8 a9 a10 a11 a12 a13 a14 a15 a16 a17) =
      juicefsiov1.CacheGroupWorkerTemplate.mk a1 (if c then v else a2) a3 a4 a5 a6 a7 a8 a9 a10 a11 a12 a13 a14 a15 a16 a17 := by
    intros; split <;> rfl
  have l3 : ∀ (c : Prop) [Decidable c] a1 a2 a3 a4 a5 a6 a7 a8 a9 a10 a11 a12 a13 a14 a15 a16 a17 v,
      (if c then juicefsiov1.CacheGroupWorkerTemplate.mk a1 a2 v a4 a5 a6 a7 a8 a9 a10 a11 a12 a13 a14 a15 a16 a17
        else juicefsiov1.CacheGroupWorkerTemplate.mk a1 a2 a3 a4 a5 a6 a7 a8 a9 a10 a11 a12 a13 a14 a15 a16 a17) =
      juicefsiov1.CacheGroupWorkerTemplate.mk a1 a2 (if c then v else a3) a4 a5 a6 a7 a8 a9 a10 a11 a12 a13 a14 a15 a16 a17 := by
    intros; split <;> rfl
  have l4 : ∀ (c : Prop) [Decidable c] a1 a2 a3 a4 a5 a6 a7 a8 a9 a10 a11 a12 a13 a14 a15 a16 a17 v,
      (if c then juicefsiov1.CacheGroupWorkerTemplate.mk a1 a2 a3 v a5 a6 a7 a8 a9 a10 a11 a12 a13 a14 a15 a16 a17
        else juicefsiov1.CacheGroupWorkerTemplate.mk a1 a2 a3 a4 a5 a6 a7 a8 a9 a10 a11 a12 a13 a14 a15 a16 a17) =
      juicefsiov1.CacheGroupWorkerTemplate.mk a1 a2 a3 (if c then v else a4) a5 a6 a7 a8 a9 a10 a11 a12 a13 a14 a15 a16 a17 := by
    intros; split <;> rfl
  have l5 : ∀ (c : Prop) [Decidable c] a1 a2 a3 a4 a5 a6 a7 a8 a9 a10 a11 a12 a13 a14 a15 a16 a17 v,
      (if c then juicefsiov1.CacheGroupWorkerTemplate.mk a1 a2 a3 a4 v a6 a7 a8 a9 a10 a11 a12 a13 a14 a15 a16 a17
        else juicefsiov1.CacheGroupWorkerTemplate.mk a1 a2 a3 a4 a5 a6 a7 a8 a9 a10 a11 a12 a13 a14 a15 a16 a17) =
      juicefsiov1.CacheGroupWorkerTemplate.mk a1 a2 a3 a4 (if c then v else a5) a6 a7 a8 a9 a10 a11 a12 a13 a14 a15 a16 a17 := by
    intros; split <;> rfl
  have l6 : ∀ (c : Prop) [Decidable c] a1 a2 a3 a4 a5 a6 a7 a8 a9 a10 a11 a12 a13 a14 a15 a16 a17 v,
      (if c then juicefsiov1.CacheGroupWorkerTemplate.mk a1 a2 a3 a4 a5 v a7 a8 a9 a10 a11 a12 a13 a14 a15 a16 a17
        else juicefsiov1.CacheGroupWorkerTemplate.mk a1 a2 a3 a4 a5 a6 a7 a8 a9 a10 a11 a12 a13 a14 a15 a16 a17) =
      juicefsiov1.CacheGroupWorkerTemplate.mk a1 a2 a3 a4 a5 (if c then v else a6) a7 a8 a9 a10 a11 a12 a13 a14 a15 a16 a17 := by
    intros; split <;> rfl
  have l7 : ∀ (c : Prop) [Decidable c] a1 a2 a3 a4 a5 a6 a7 a8 a9 a10 a11 a12 a13 a14 a15 a16 a17 v,
      (if c then juicefsiov1.CacheGroupWorkerTemplate.mk a1 a2 a3 a4 a5 a6 v a8 a9 a10 a11 a12 a13 a14 a15 a16 a17
        else juicefsiov1.CacheGroupWorkerTemplate.mk a1 a2 a3 a4 a5 a6 a7 a8 a9 a10 a11 a12 a13 a14 a15 a16 a17) =
      juicefsiov1.CacheGroupWorkerTemplate.mk a1 a2 a3 a4 a5 a6 (if c then v else a7) a8 a9 a10 a11 a12 a13 a14 a15 a16 a17 := by
    intros; split <;> rfl
  have l8 : ∀ (c : Prop) [Decidable c] a1 a2 a3 a4 a5 a6 a7 a8 a9 a10 a11 a12 a13 a14 a15 a16 a17 v,
      (if c then juicefsiov1.CacheGroupWorkerTemplate.mk a1 a2 a3 a4 a5 a6 a7 v a9 a10 a11 a12 a13 a14 a15 a16 a17
        else juicefsiov1.CacheGroupWorkerTemplate.mk a1 a2 a3 a4 a5 a6 a7 a8 a9 a10 a11 a12 a13 a14 a15 a16 a17) =
      juicefsiov1.CacheGroupWorkerTemplate.mk a1 a2 a3 a4 a5 a6 a7 (if c then v else a8) a9 a10 a11 a12 a13 a14 a15 a16 a17 := by
    intros; split <;> rfl
  have l9 : ∀ (c : Prop) [Decidable c] a1 a2 a3 a4 a5 a6 a7 a8 a9 a10 a11 a12 a13 a14 a15 a16 a17 v,
      (if c then juicefsiov1.CacheGroupWorkerTemplate.mk a1 a2 a3 a4 a5 a6 a7 a8 v a10 a11 a12 a13 a14 a15 a16 a17
        else juicefsiov1.CacheGroupWorkerTemplate.mk a1 a2 a3 a4 a5 a6 a7 a8 a9 a10 a11 a12 a13 a14 a15 a16 a17) =
      juicefsiov1.CacheGroupWorkerTemplate.mk a1 a2 a3 a4 a5 a6 a7 a8 (if c then v else a9) a10 a11 a12 a13 a14 a15 a16 a17 := by
    intros; split <;> rfl
  have l10 : ∀ (c : Prop) [Decidable c] a1 a2 a3 a4 a5 a6 a7 a8 a9 a10 a11 a12 a13 a14 a15 a16 a17 v,
      (if c then juicefsiov1.CacheGroupWorkerTemplate.mk a1 a2 a3 a4 a5 a6 a7 a8 a9 v a11 a12 a13 a14 a15 a16 a17
        else juicefsiov1.CacheGroupWorkerTemplate.mk a1 a2 a3 a4 a5 a6 a7 a8 a9 a10 a11 a12 a13 a14 a15 a16 a17) =
      juicefsiov1.CacheGroupWorkerTemplate.mk a1 a2 a3 a4 a5 a6 a7 a8 a9 (if c then v else a10) a11 a12 a13 a14 a15 a16 a17 := by
    intros; split <;> rfl
  have l11 : ∀ (c : Prop) [Decidable c] a1 a2 a3 a4 a5 a6 a7 a8 a9 a10 a11 a12 a13 a14 a15 a16 a17 v,
      (if c then juicefsiov1.CacheGroupWorkerTemplate.mk a1 a2 a3 a4 a5 a6 a7 a8 a9 a10 v a12 a13 a14 a15 a16 a17
        else juicefsiov1.CacheGroupWorkerTemplate.mk a1 a2 a3 a4 a5 a6 a7 a8 a9 a10 a11 a12 a13 a14 a15 a16 a17) =
      juicefsiov1.CacheGroupWorkerTemplate.mk a1 a2 a3 a4 a5 a6 a7 a8 a9 a10 (if c then v else a11) a12 a13 a14 a15 a16 a17 := by
    intros; split <;> rfl
  have l12 : ∀ (c : Prop) [Decidable c] a1 a2 a3 a4 a5 a6 a7 a8 a9 a10 a11 a12 a13 a14 a15 a16 a17 v,
      (if c then juicefsiov1.CacheGroupWorkerTemplate.mk a1 a2 a3 a4 a5 a6 a7 a8 a9 a10 a11 v a13 a14 a15 a16 a17
        else juicefsiov1.CacheGroupWorkerTemplate.mk a1 a2 a3 a4 a5 a6 a7 a8 a9 a10 a11 a12 a13 a14 a15 a16 a17) =
      juicefsiov1.CacheGroupWorkerTemplate.mk a1 a2 a3 a4 a5 a6 a7 a8 a9 a10 a11 (if c then v else a12) a13 a14 a15 a16 a17 := by
    intros; split <;> rfl
  have l13 : ∀ (c : Prop) [Decidable c] a1 a2 a3 a4 a5 a6 a7 a8 a9 a10 a11 a12 a13 a14 a15 a16 a17 v,
      (if c then juicefsiov1.CacheGroupWorkerTemplate.mk a1 a2 a3 a4 a5 a6 a7 a8 a9 a10 a11 a12 v a14 a15 a16 a17
        else juicefsiov1.CacheGroupWorkerTemplate.mk a1 a2 a3 a4 a5 a6 a7 a8 a9 a10 a11 a12 a13 a14 a15 a16 a17) =
      juicefsiov1.CacheGroupWorkerTemplate.mk a1 a2 a3 a4 a5 a6 a7 a8 a9 a10 a11 a12 (if c then v else a13) a14 a15 a16 a17 := by
    intros; split <;> rfl
  have l14 : ∀ (c : Prop) [Decidable c] a1 a2 a3 a4 a5 a6 a7 a8 a9 a10 a11 a12 a13 a14 a15 a16 a17 v,
      (if c then juicefsiov1.CacheGroupWorkerTemplate.mk a1 a2 a3 a4 a5 a6 a7 a8 a9 a10 a11 a12 a13 v a15 a16 a17
        else juicefsiov1.CacheGroupWorkerTemplate.mk a1 a2 a3 a4 a5 a6 a7 a8 a9 a10 a11 a12 a13 a14 a15 a16 a17) =
      juicefsiov1.CacheGroupWorkerTemplate.mk a1 a2 a3 a4 a5 a6 a7 a8 a9 a10 a11 a12 a13 (if c then v else a14) a15 a16 a17 := by
    intros; split <;> rfl
  have l15 : ∀ (c : Prop) [Decidable c] a1 a2 a3 a4 a5 a6 a7 a8 a9 a10 a11 a12 a13 a14 a15 a16 a17 v,
      (if c then juicefsiov1.CacheGroupWorkerTemplate.mk a1 a2 a3 a4 a5 a6 a7 a8 a9 a10 a11 a12 a13 a14 v a16 a17
        else juicefsiov1.CacheGroupWorkerTemplate.mk a1 a2 a3 a4 a5 a6 a7 a8 a9 a10 a11 a12 a13 a14 a15 a16 a17) =
      juicefsiov1.CacheGroupWorkerTemplate.mk a1 a2 a3 a4 a5 a6 a7 a8 a9 a10 a11 a12 a13 a14 (if c then v else a15) a16 a17 := by
    intros; split <;> rfl
  have l16 : ∀ (c : Prop) [Decidable c] a1 a2 a3 a4 a5 a6 a7 a8 a9 a10 a11 a12 a13 a14 a15 a16 a17 v,
      (if c then juicefsiov1.CacheGroupWorkerTemplate.mk a1 a2 a3 a4 a5 a6 a7 a8 a9 a10 a11 a12 a13 a14 a15 v a17
        else juicefsiov1.CacheGroupWorkerTemplate.mk a1 a2 a3 a4 a5 a6 a7 a8 a9 a10 a11 a12 a13 a14 a15 a16 a17) =
      juicefsiov1.CacheGroupWorkerTemplate.mk a1 a2 a3 a4 a5 a6 a7 a8 a9 a10 a11 a12 a13 a14 a15 (if c then v else a16) a17 := by
    intros; split <;> rfl
  have l17 : ∀ (c : Prop) [Decidable c] a1 a2 a3 a4 a5 a6 a7 a8 a9 a10 a11 a12 a13 a14 a15 a16 a17 v,
      (if c then juicefsiov1.CacheGroupWorkerTemplate.mk a1 a2 a3 a4 a5 a6 a7 a8 a9 a10 a11 a12 a13 a14 a15 a16 v
        else juicefsiov1.CacheGroupWorkerTemplate.mk a1 a2 a3 a4 a5 a6 a7 a8 a9 a10 a11 a12 a13 a14 a15 a16 a17) =
      juicefsiov1.CacheGroupWorkerTemplate.mk a1 a2 a3 a4 a5 a6 a7 a8 a9 a10 a11 a12 a13 a14 a15 a16 (if c then v else a17) := by
    intros; split <;> rfl
  simp only [builder.MergeCacheGrouopWorkerTemplate, l1, l2, l3, l4, l5, l6, l7, l8, l9, l10, l11, l12, l13, l14, l15, l16, l17]

/-! ## Theorems -/

/-- C1: when the credential has no initconfig, or an empty one, the auth
command is `/usr/bin/juicefs auth <volname>`, then `--<key> <arg>` for the
keys present among token, access-key, access-key2, bucket, bucket2, subdir,
secret-key, secret-key2 in that order (an environment reference for token,
secret-key and secret-key2, the credential's value otherwise), then the flags
of the parsed format-options in order. -/
theorem genAuthCmds_without_initconfig (U : Utils) (cg : juicefsiov1.CacheGroup)
    (secret : corev1.Secret) (node : String) (tpl : juicefsiov1.CacheGroupWorkerTemplate)
    (h : Map.get (U.ParseSecret secret) "initconfig" = none ∨
      Map.get (U.ParseSecret secret) "initconfig" = some "") :
    builder.genAuthCmds U (builder.NewPodBuilder U cg secret node tpl) =
      ["/usr/bin/juicefs", "auth", Map.index (U.ParseSecret secret) "name"] ++
        ["token", "access-key", "access-key2", "bucket", "bucket2", "subdir", "secret-key",
          "secret-key2"].flatMap (spec.authFlag (U.ParseSecret secret)) ++
        (match Map.get (U.ParseSecret secret) "format-options" with
         | none => []
         | some value =>
           (U.ParseOptions (some (strings.Split value ','))).flatMap spec.formatFlag) := by
  have h0 := NewPodBuilder_initConfig_empty U cg secret node tpl h
  have h1 := genAuthCmds_cli U (builder.NewPodBuilder U cg secret node tpl) h0 rfl
  rw [h1]
  rfl

/-- Witness of C1: the credential {name: myfs, token: T, access-key: A,
secret-key: S}. -/
theorem genAuthCmds_without_initconfig_witness :
    (Map.get (fixture.U.ParseSecret fixture.secret1) "initconfig" = none ∨
      Map.get (fixture.U.ParseSecret fixture.secret1) "initconfig" = some "") ∧
    builder.genAuthCmds fixture.U
        (builder.NewPodBuilder fixture.U fixture.cg1 fixture.secret1 "n1" {}) =
      ["/usr/bin/juicefs", "auth", "myfs", "--token", "$\x7bTOKEN\x7d", "--access-key", "A",
        "--secret-key", "$\x7bSECRET_KEY\x7d"] :=
  ⟨by decide,
   (genAuthCmds_without_initconfig fixture.U fixture.cg1 fixture.secret1 "n1" {}
      (by decide)).trans (by decide)⟩

/-- C2: the container command is `sh`, `-c`, S with S the auth words joined
by spaces, a newline, and `exec /sbin/mount.juicefs <volname> /mnt/jfs -o
<opts>`; the options are `foreground`, `cache-group=<tag>`, the user's options
other than cache-dir in order (trimmed, `k=v` or `k`), and the cache-dir
entry, joined by commas. -/
theorem genCommands_shell_form (U : Utils) (p : builder.PodBuilder) :
    builder.genCommands U p =
      ["sh", "-c",
       strings.Join (builder.genAuthCmds U p) " " ++ "\n" ++
         ("exec /sbin/mount.juicefs " ++ p.volName ++ " /mnt/jfs -o " ++
           strings.Join
             (["foreground", "cache-group=" ++ builder.GenCacheGroupName p.cg] ++
               ((U.ParseOptions p.spec.Opts).filter (fun o => o.1 ≠ "cache-dir")).map
                 (fun o =>
                   if o.2 ≠ "" then strings.TrimSpace o.1 ++ "=" ++ strings.TrimSpace o.2
                   else strings.TrimSpace o.1) ++
               [spec.cacheDirEntry (U.ParseOptions p.spec.Opts)]) ",")] := by
  rw [genCommands_eq, genCommandsOpts_eq]
  rfl

/-- The option list before the join: it ends with the cache-dir entry, and
when the parsed keys are trimmed and free of `=` no other element has the key
cache-dir. -/
theorem genCommandsOpts_cache_dir (U : Utils) (p : builder.PodBuilder) :
    builder.genCommands U p =
      ["sh", "-c",
       strings.Join (builder.genAuthCmds U p) " " ++ "\n" ++
         ("exec /sbin/mount.juicefs " ++ p.volName ++ " /mnt/jfs -o " ++
           strings.Join (builder.genCommandsOpts U p) ",")] ∧
    (∀ v, spec.lastCacheDir (U.ParseOptions p.spec.Opts) = some v →
      (builder.genCommandsOpts U p).getLast? = some ("cache-dir=" ++ v) ∧
      strings.Join (strings.Split v ':') ":" = v) ∧
    (spec.lastCacheDir (U.ParseOptions p.spec.Opts) = none →
      (builder.genCommandsOpts U p).getLast? = some "cache-dir=/var/jfsCache") ∧
    ((∀ o ∈ U.ParseOptions p.spec.Opts, strings.TrimSpace o.1 = o.1 ∧ '=' ∉ o.1.data) →
      ∀ v, (builder.genCommandsOpts U p).getLast? = some v →
        (builder.genCommandsOpts U p).filter (fun e => spec.optKey e = "cache-dir") = [v]) := by
  refine ⟨genCommands_eq U p, ?_, ?_, ?_⟩
  · intro v hv
    rw [genCommandsOpts_eq, List.getLast?_concat]
    simp only [spec.cacheDirEntry, hv]
    exact ⟨trivial, Join_Split v⟩
  · intro hv
    rw [genCommandsOpts_eq, List.getLast?_concat]
    simp only [spec.cacheDirEntry, hv]
  · intro h v hv
    rw [genCommandsOpts_eq, List.getLast?_concat] at hv
    rw [genCommandsOpts_eq, List.filter_append, List.filter_append, filter_userOptEntries _ h]
    have h1 : spec.optKey "foreground" ≠ "cache-dir" := by decide
    have h2 : spec.optKey ("cache-group=" ++ builder.GenCacheGroupName p.cg) ≠ "cache-dir" := by
      rw [optKey_cache_group]
      decide
    have h3 := optKey_cacheDirEntry (U.ParseOptions p.spec.Opts)
    simp only [Option.some.injEq] at hv
    subst hv
    simp [List.filter, h1, h2, h3]

/-- C4: the environment is the three secret-key references TOKEN (token,
required), SECRET_KEY (secret-key, required), SECRET_KEY_2 (secret-key2,
optional) to the CacheGroup's secretRef, then the template's env in order,
whatever the credential holds. -/
theorem genEnvs_of_builder (U : Utils) (cg : juicefsiov1.CacheGroup) (secret : corev1.Secret)
    (node : String) (tpl : juicefsiov1.CacheGroupWorkerTemplate) :
    builder.genEnvs (builder.NewPodBuilder U cg secret node tpl) =
      [{ Name := "TOKEN"
         ValueFrom := some ⟨some ⟨⟨cg.Spec.SecretRef.Name⟩, "token", some false⟩⟩ },
       { Name := "SECRET_KEY"
         ValueFrom := some ⟨some ⟨⟨cg.Spec.SecretRef.Name⟩, "secret-key", some false⟩⟩ },
       { Name := "SECRET_KEY_2"
         ValueFrom := some ⟨some ⟨⟨cg.Spec.SecretRef.Name⟩, "secret-key2", some true⟩⟩ }] ++
        tpl.Env.toList := by
  rw [genEnvs_eq]
  rfl

/-- C5: GenCacheGroupName is the explicit cacheGroup tag when non-empty and
`<namespace>-<name>` otherwise, and it is the tag of the `cache-group=` mount
option in the command of every worker built for the CacheGroup. -/
theorem GenCacheGroupName_is_tag (cg : juicefsiov1.CacheGroup) :
    builder.GenCacheGroupName cg =
      (if cg.Spec.CacheGroup = "" then cg.Namespace ++ "-" ++ cg.Name else cg.Spec.CacheGroup) ∧
    ∀ (U : Utils) (secret : corev1.Secret) (node : String)
      (tpl : juicefsiov1.CacheGroupWorkerTemplate),
      (builder.NewCacheGroupWorker U (builder.NewPodBuilder U cg secret node tpl)).1.Spec.Containers.map
          (fun c => c.Command) =
        [["sh", "-c",
          strings.Join (builder.genAuthCmds U (builder.NewPodBuilder U cg secret node tpl)) " " ++
            "\n" ++
            ("exec /sbin/mount.juicefs " ++ Map.index (U.ParseSecret secret) "name" ++
              " /mnt/jfs -o " ++
              strings.Join
                (["foreground", "cache-group=" ++ builder.GenCacheGroupName cg] ++
                  spec.userOptEntries (U.ParseOptions tpl.Opts) ++
                  [spec.cacheDirEntry (U.ParseOptions tpl.Opts)]) ",")]] := by
  constructor
  · unfold builder.GenCacheGroupName
    by_cases h : cg.Spec.CacheGroup = "" <;> simp [h]
  · intro U secret node tpl
    rw [NewCacheGroupWorker_fst]
    simp only [List.map_cons, List.map_nil]
    rw [genCommands_eq, genCommandsOpts_eq]
    rfl

/-- The two examples of C5: ns1/cg1 without a tag, and with the tag prod. -/
theorem GenCacheGroupName_examples :
    builder.GenCacheGroupName fixture.cg1 = "ns1-cg1" ∧
    builder.GenCacheGroupName fixture.cgProd = "prod" := by
  decide

/-- C6 as stated fails: a credential that has an initconfig key with an empty
value gets the `juicefs auth` form and no init-config volume or mount. -/
theorem initconfig_empty_counterexample :
    Map.get (fixture.U.ParseSecret { Data := [("name", "myfs"), ("initconfig", "")] }) "initconfig" ≠ none ∧
    builder.genAuthCmds fixture.U
        (builder.NewPodBuilder fixture.U fixture.cg1 { Data := [("name", "myfs"), ("initconfig", "")] }
          "n1" {}) = ["/usr/bin/juicefs", "auth", "myfs"] ∧
    (builder.NewCacheGroupWorker fixture.U
        (builder.NewPodBuilder fixture.U fixture.cg1 { Data := [("name", "myfs"), ("initconfig", "")] }
          "n1" {})).1.Spec.Volumes = none ∧
    (builder.NewCacheGroupWorker fixture.U
        (builder.NewPodBuilder fixture.U fixture.cg1 { Data := [("name", "myfs"), ("initconfig", "")] }
          "n1" {})).1.Spec.Containers.map (fun c => c.VolumeMounts) = [none] := by
  decide

/-- C6, amended: with a non-empty initconfig the auth command is
`cp /etc/juicefs/<volname>.conf /root/.juicefs`, the worker's volumes are the
template's followed by the secret volume init-config (item initconfig to
`<volname>.conf`, from the CacheGroup's secretRef) and its mounts the
template's followed by init-config at /etc/juicefs; with no initconfig or an
empty one the auth command is the `juicefs auth` flag form and the volumes and
mounts are the template's own. -/
theorem initconfig_selects_auth_form (U : Utils) (cg : juicefsiov1.CacheGroup)
    (secret : corev1.Secret) (node : String) (tpl : juicefsiov1.CacheGroupWorkerTemplate) :
    (∀ v, Map.get (U.ParseSecret secret) "initconfig" = some v → v ≠ "" →
      builder.genAuthCmds U (builder.NewPodBuilder U cg secret node tpl) =
        ["cp", "/etc/juicefs/" ++ Map.index (U.ParseSecret secret) "name" ++ ".conf",
          "/root/.juicefs"] ∧
      (builder.NewCacheGroupWorker U (builder.NewPodBuilder U cg secret node tpl)).1.Spec.Containers.map
          (fun c => c.Command) =
        [["sh", "-c",
          "cp /etc/juicefs/" ++ Map.index (U.ParseSecret secret) "name" ++
            ".conf /root/.juicefs" ++ "\n" ++
            ("exec /sbin/mount.juicefs " ++ Map.index (U.ParseSecret secret) "name" ++
              " /mnt/jfs -o " ++
              strings.Join (builder.genCommandsOpts U (builder.NewPodBuilder U cg secret node tpl))
                ",")]] ∧
      (builder.NewCacheGroupWorker U (builder.NewPodBuilder U cg secret node tpl)).1.Spec.Volumes =
        some (tpl.Volumes.toList ++
          [⟨"init-config",
            ⟨some ⟨cg.Spec.SecretRef.Name,
              [⟨"initconfig", Map.index (U.ParseSecret secret) "name" ++ ".conf"⟩]⟩, none⟩⟩]) ∧
      (builder.NewCacheGroupWorker U (builder.NewPodBuilder U cg secret node tpl)).1.Spec.Containers.map
          (fun c => c.VolumeMounts) =
        [some (tpl.VolumeMounts.toList ++ [⟨"init-config", "/etc/juicefs"⟩])]) ∧
    ((Map.get (U.ParseSecret secret) "initconfig" = none ∨
        Map.get (U.ParseSecret secret) "initconfig" = some "") →
      builder.genAuthCmds U (builder.NewPodBuilder U cg secret node tpl) =
        spec.authCli U (U.ParseSecret secret) ∧
      (builder.NewCacheGroupWorker U (builder.NewPodBuilder U cg secret node tpl)).1.Spec.Volumes =
        tpl.Volumes ∧
      (builder.NewCacheGroupWorker U (builder.NewPodBuilder U cg secret node tpl)).1.Spec.Containers.map
          (fun c => c.VolumeMounts) = [tpl.VolumeMounts]) := by
  constructor
  · intro v h hv
    have h0 := NewPodBuilder_initConfig_ne U cg secret node tpl v h hv
    have ha := genAuthCmds_cp U _ h0
    have hvol : (builder.NewPodBuilder U cg secret node tpl).volName =
        Map.index (U.ParseSecret secret) "name" := rfl
    rw [hvol] at ha
    refine ⟨ha, ?_, ?_, ?_⟩
    · rw [NewCacheGroupWorker_fst]
      simp only [List.map_cons, List.map_nil]
      rw [genCommands_eq, ha, Join_cp, hvol]
    · rw [NewCacheGroupWorker_fst]
      simp only [builder.genInitConfigVolumes, h0, if_false]
      rfl
    · rw [NewCacheGroupWorker_fst]
      simp only [builder.genInitConfigVolumes, h0, if_false]
      rfl
  · intro h
    have h0 := NewPodBuilder_initConfig_empty U cg secret node tpl h
    refine ⟨genAuthCmds_cli U _ h0 rfl, ?_, ?_⟩
    · rw [NewCacheGroupWorker_fst]
      simp only [builder.genInitConfigVolumes, h0, if_true]
      rfl
    · rw [NewCacheGroupWorker_fst]
      simp only [builder.genInitConfigVolumes, h0, if_true]
      rfl

/-- Witness of the amended C6: a credential with initconfig `conf: 1`, and
the credential of the first scenario, which has none. -/
theorem initconfig_selects_auth_form_witness :
    (Map.get (fixture.U.ParseSecret { Data := [("name", "myfs"), ("initconfig", "conf: 1")] })
        "initconfig" = some "conf: 1" ∧ "conf: 1" ≠ "") ∧
    builder.genAuthCmds fixture.U
        (builder.NewPodBuilder fixture.U fixture.cg1
          { Data := [("name", "myfs"), ("initconfig", "conf: 1")] } "n1" {}) =
      ["cp", "/etc/juicefs/myfs.conf", "/root/.juicefs"] ∧
    (Map.get (fixture.U.ParseSecret fixture.secret1) "initconfig" = none ∨
      Map.get (fixture.U.ParseSecret fixture.secret1) "initconfig" = some "") ∧
    (builder.NewCacheGroupWorker fixture.U
        (builder.NewPodBuilder fixture.U fixture.cg1 fixture.secret1 "n1" {})).1.Spec.Volumes =
      none :=
  ⟨⟨by decide, by decide⟩,
   ((initconfig_selects_auth_form fixture.U fixture.cg1
      { Data := [("name", "myfs"), ("initconfig", "conf: 1")] } "n1" {}).1 "conf: 1" (by decide)
      (by decide)).1.trans (by decide),
   by decide,
   ((initconfig_selects_auth_form fixture.U fixture.cg1 fixture.secret1 "n1" {}).2
      (by decide)).2.1⟩

/-- C7: after the merge every field of the template is the override's value
when the override sets it (non-empty string, non-nil pointer, non-nil slice)
and the base's value otherwise; a set slice replaces the base slice. -/
theorem Merge_fieldwise (t : juicefsiov1.CacheGroupWorkerTemplate)
    (o : juicefsiov1.CacheGroupWorkerOverwrite) :
    (builder.MergeCacheGrouopWorkerTemplate t o).ServiceAccountName =
      (if o.ServiceAccountName ≠ "" then o.ServiceAccountName else t.ServiceAccountName) ∧
    (builder.MergeCacheGrouopWorkerTemplate t o).HostNetwork =
      (if o.HostNetwork ≠ none then o.HostNetwork else t.HostNetwork) ∧
    (builder.MergeCacheGrouopWorkerTemplate t o).SchedulerName =
      (if o.SchedulerName ≠ "" then o.SchedulerName else t.SchedulerName) ∧
    (builder.MergeCacheGrouopWorkerTemplate t o).Tolerations =
      (if o.Tolerations ≠ none then o.Tolerations else t.Tolerations) ∧
    (builder.MergeCacheGrouopWorkerTemplate t o).Image =
      (if o.Image ≠ "" then o.Image else t.Image) ∧
    (builder.MergeCacheGrouopWorkerTemplate t o).Env =
      (if o.Env ≠ none then o.Env else t.Env) ∧
    (builder.MergeCacheGrouopWorkerTemplate t o).Resources =
      (if o.Resources ≠ none then o.Resources else t.Resources) ∧
    (builder.MergeCacheGrouopWorkerTemplate t o).LivenessProbe =
      (if o.LivenessProbe ≠ none then o.LivenessProbe else t.LivenessProbe) ∧
    (builder.MergeCacheGrouopWorkerTemplate t o).ReadinessProbe =
      (if o.ReadinessProbe ≠ none then o.ReadinessProbe else t.ReadinessProbe) ∧
    (builder.MergeCacheGrouopWorkerTemplate t o).StartupProbe =
      (if o.StartupProbe ≠ none then o.StartupProbe else t.StartupProbe) ∧
    (builder.MergeCacheGrouopWorkerTemplate t o).SecurityContext =
      (if o.SecurityContext ≠ none then o.SecurityContext else t.SecurityContext) ∧
    (builder.MergeCacheGrouopWorkerTemplate t o).Lifecycle =
      (if o.Lifecycle ≠ none then o.Lifecycle else t.Lifecycle) ∧
    (builder.MergeCacheGrouopWorkerTemplate t o).VolumeMounts =
      (if o.VolumeMounts ≠ none then o.VolumeMounts else t.VolumeMounts) ∧
    (builder.MergeCacheGrouopWorkerTemplate t o).VolumeDevices =
      (if o.VolumeDevices ≠ none then o.VolumeDevices else t.VolumeDevices) ∧
    (builder.MergeCacheGrouopWorkerTemplate t o).Volumes =
      (if o.Volumes ≠ none then o.Volumes else t.Volumes) ∧
    (builder.MergeCacheGrouopWorkerTemplate t o).Opts =
      (if o.Opts ≠ none then o.Opts else t.Opts) ∧
    (builder.MergeCacheGrouopWorkerTemplate t o).DNSPolicy =
      (if o.DNSPolicy ≠ none then o.DNSPolicy else t.DNSPolicy) := by
  rw [Merge_eq]
  exact ⟨rfl, rfl, rfl, rfl, rfl, rfl, rfl, rfl, rfl, rfl, rfl, rfl, rfl, rfl, rfl, rfl, rfl⟩

/-- The example of C7: base opts a=1, b=2 and override opts a=9 give a=9. -/
theorem Merge_opts_example :
    (builder.MergeCacheGrouopWorkerTemplate fixture.baseTemplate
      { Opts := some ["a=9"] }).Opts = some ["a=9"] := by
  decide

/-- C8: merging an override with every field unset leaves the template
unchanged, and merging an override with every field set gives the override's
value in every field, whatever the template. -/
theorem Merge_identities :
    (∀ (t : juicefsiov1.CacheGroupWorkerTemplate) (o : juicefsiov1.CacheGroupWorkerOverwrite),
      spec.overwriteUnset o → builder.MergeCacheGrouopWorkerTemplate t o = t) ∧
    (∀ (t : juicefsiov1.CacheGroupWorkerTemplate) (o : juicefsiov1.CacheGroupWorkerOverwrite),
      spec.overwriteFull o →
      builder.MergeCacheGrouopWorkerTemplate t o =
      { ServiceAccountName := o.ServiceAccountName
        HostNetwork := o.HostNetwork
        SchedulerName := o.SchedulerName
        Tolerations := o.Tolerations
        Image := o.Image
        Env := o.Env
        Resources := o.Resources
        LivenessProbe := o.LivenessProbe
        ReadinessProbe := o.ReadinessProbe
        StartupProbe := o.StartupProbe
        SecurityContext := o.SecurityContext
        Lifecycle := o.Lifecycle
        VolumeMounts := o.VolumeMounts
        VolumeDevices := o.VolumeDevices
        Volumes := o.Volumes
        Opts := o.Opts
        DNSPolicy := o.DNSPolicy }) := by
  constructor
  · intro t o h
    obtain ⟨h1, h2, h3, h4, h5, h6, h7, h8, h9, h10, h11, h12, h13, h14, h15, h16, h17⟩ := h
    rw [Merge_eq]
    simp only [h1, h2, h3, h4, h5, h6, h7, h8, h9, h10, h11, h12, h13, h14, h15, h16, h17,
      ne_eq, not_true_eq_false, if_false]
  · intro t o h
    obtain ⟨h1, h2, h3, h4, h5, h6, h7, h8, h9, h10, h11, h12, h13, h14, h15, h16, h17⟩ := h
    rw [Merge_eq]
    simp only [h1, h2, h3, h4, h5, h6, h7, h8, h9, h10, h11, h12, h13, h14, h15, h16, h17,
      ne_eq, not_false_eq_true, if_true]

/-- Witness of C8: the empty override and a full override on one base
template. -/
theorem Merge_identities_witness :
    spec.overwriteUnset {} ∧
    builder.MergeCacheGrouopWorkerTemplate fixture.baseTemplate {} = fixture.baseTemplate ∧
    spec.overwriteFull fixture.fullOverwrite ∧
    (builder.MergeCacheGrouopWorkerTemplate fixture.baseTemplate fixture.fullOverwrite).Opts =
      some ["a=9"] :=
  ⟨by decide, Merge_identities.1 fixture.baseTemplate {} (by decide), by decide,
   (congrArg juicefsiov1.CacheGroupWorkerTemplate.Opts
     (Merge_identities.2 fixture.baseTemplate fixture.fullOverwrite (by decide))).trans rfl⟩

/-- C9: the worker built for a CacheGroup and a node is named
`juicefs-cg-worker-<cg.Name>-<node>`, is in the CacheGroup's namespace, is
pinned to the node, carries the cache-group and app name labels, has the
CacheGroup as its single, controlling owner reference, and has the single
container `juicefs-cg-worker`. -/
theorem worker_identity (U : Utils) (cg : juicefsiov1.CacheGroup) (secret : corev1.Secret)
    (node : String) (tpl : juicefsiov1.CacheGroupWorkerTemplate) :
    (spec.builtWorker U cg secret node tpl).ObjectMeta.Name =
      "juicefs-cg-worker-" ++ cg.Name ++ "-" ++ node ∧
    (spec.builtWorker U cg secret node tpl).ObjectMeta.Namespace = cg.Namespace ∧
    (spec.builtWorker U cg secret node tpl).Spec.NodeName = node ∧
    Map.get (spec.builtWorker U cg secret node tpl).ObjectMeta.Labels "juicefs.io/cache-group" =
      some cg.Name ∧
    Map.get (spec.builtWorker U cg secret node tpl).ObjectMeta.Labels "app.kubernetes.io/name" =
      some "juicefs-cache-group-worker" ∧
    (spec.builtWorker U cg secret node tpl).ObjectMeta.OwnerReferences =
      [⟨cg.APIVersion, cg.Kind, cg.Name, cg.UID, some true⟩] ∧
    (spec.builtWorker U cg secret node tpl).Spec.Containers.map (fun c => c.Name) =
      ["juicefs-cg-worker"] := by
  unfold spec.builtWorker
  rw [NewCacheGroupWorker_fst]
  refine ⟨?_, rfl, rfl, rfl, rfl, rfl, rfl⟩
  exact GenWorkerName_eq cg.Name node

/-- C10 as stated fails: the worker returned by the builder has no
`juicefs.io/worker-hash` label. -/
theorem worker_hash_label_counterexample :
    Map.get (spec.builtWorker fixture.U fixture.cg1 fixture.secret1 "n1"
      fixture.baseTemplate).ObjectMeta.Labels common.LabelWorkerHash = none := by
  decide

/-- C10, amended: the labels of the worker returned by the builder are
exactly `juicefs.io/cache-group` and `app.kubernetes.io/name`; there is no
`juicefs.io/worker-hash` label and there are no annotations. -/
theorem worker_labels (U : Utils) (cg : juicefsiov1.CacheGroup) (secret : corev1.Secret)
    (node : String) (tpl : juicefsiov1.CacheGroupWorkerTemplate) :
    (spec.builtWorker U cg secret node tpl).ObjectMeta.Labels =
      [("juicefs.io/cache-group", cg.Name),
       ("app.kubernetes.io/name", "juicefs-cache-group-worker")] ∧
    Map.get (spec.builtWorker U cg secret node tpl).ObjectMeta.Labels common.LabelWorkerHash =
      none ∧
    (spec.builtWorker U cg secret node tpl).ObjectMeta.Annotations = [] := by
  unfold spec.builtWorker
  rw [NewCacheGroupWorker_fst]
  exact ⟨rfl, rfl, rfl⟩

/-- C11: hostNetwork is true when the template leaves it nil and the
template's value otherwise; the security context is privileged: true, the
lifecycle the pre-stop exec `sh -c "umount /mnt/jfs"`, and the resources
requests cpu 1 / memory 1Gi with limits cpu 100m / memory 100Mi, each exactly
when the template gives none, and the template's value otherwise. -/
theorem worker_defaults (U : Utils) (cg : juicefsiov1.CacheGroup) (secret : corev1.Secret)
    (node : String) (tpl : juicefsiov1.CacheGroupWorkerTemplate) :
    (spec.builtWorker U cg secret node tpl).Spec.HostNetwork =
      (match tpl.HostNetwork with
       | none => true
       | some b => b) ∧
    (spec.builtWorker U cg secret node tpl).Spec.Containers.map (fun c => c.SecurityContext) =
      [some (match tpl.SecurityContext with
             | none => { Privileged := some true }
             | some sc => sc)] ∧
    (spec.builtWorker U cg secret node tpl).Spec.Containers.map (fun c => c.Lifecycle) =
      [some (match tpl.Lifecycle with
             | none => ⟨none, some ⟨some ⟨["sh", "-c", "umount /mnt/jfs"]⟩⟩⟩
             | some lc => lc)] ∧
    (spec.builtWorker U cg secret node tpl).Spec.Containers.map (fun c => c.Resources) =
      [match tpl.Resources with
       | none => ⟨[("cpu", "100m"), ("memory", "100Mi")], [("cpu", "1"), ("memory", "1Gi")]⟩
       | some r => r] := by
  unfold spec.builtWorker
  rw [NewCacheGroupWorker_fst]
  refine ⟨?_, ?_, ?_, ?_⟩
  · show tpl.HostNetwork.getD true = _
    cases tpl.HostNetwork <;> rfl
  · show [some (tpl.SecurityContext.getD _)] = _
    cases tpl.SecurityContext <;> rfl
  · show [some (tpl.Lifecycle.getD _)] = _
    cases tpl.Lifecycle <;> rfl
  · show [tpl.Resources.getD _] = _
    cases tpl.Resources <;> rfl

/-- C12 as stated fails: with a template whose securityContext says
privileged: false and whose lifecycle has no pre-stop hook, the worker's
container is not privileged and has no pre-stop hook. -/
theorem worker_privileged_counterexample :
    (spec.builtWorker fixture.U fixture.cg1 fixture.secret1 "n1"
        { SecurityContext := some { Privileged := some false },
          Lifecycle := some {} }).Spec.Containers.map
      (fun c => (c.SecurityContext.bind (fun sc => sc.Privileged),
                 c.Lifecycle.bind (fun lc => lc.PreStop))) = [(some false, none)] := by
  decide

/-- C12, amended: every worker has a single container; it is privileged when
the template supplies no securityContext and has the pre-stop hook
`sh -c "umount /mnt/jfs"` when the template supplies no lifecycle; a
securityContext or lifecycle of the template is used as given. -/
theorem worker_privileged_by_default (U : Utils) (cg : juicefsiov1.CacheGroup)
    (secret : corev1.Secret) (node : String) (tpl : juicefsiov1.CacheGroupWorkerTemplate) :
    (spec.builtWorker U cg secret node tpl).Spec.Containers.length = 1 ∧
    (tpl.SecurityContext = none →
      (spec.builtWorker U cg secret node tpl).Spec.Containers.map (fun c => c.SecurityContext) =
        [some { Privileged := some true }]) ∧
    (∀ sc, tpl.SecurityContext = some sc →
      (spec.builtWorker U cg secret node tpl).Spec.Containers.map (fun c => c.SecurityContext) =
        [some sc]) ∧
    (tpl.Lifecycle = none →
      (spec.builtWorker U cg secret node tpl).Spec.Containers.map (fun c => c.Lifecycle) =
        [some ⟨none, some ⟨some ⟨["sh", "-c", "umount /mnt/jfs"]⟩⟩⟩]) ∧
    (∀ lc, tpl.Lifecycle = some lc →
      (spec.builtWorker U cg secret node tpl).Spec.Containers.map (fun c => c.Lifecycle) =
        [some lc]) := by
  unfold spec.builtWorker
  rw [NewCacheGroupWorker_fst]
  refine ⟨rfl, ?_, ?_, ?_, ?_⟩
  · intro h
    show [some (tpl.SecurityContext.getD _)] = _
    rw [h]
    rfl
  · intro sc h
    show [some (tpl.SecurityContext.getD _)] = _
    rw [h]
    rfl
  · intro h
    show [some (tpl.Lifecycle.getD _)] = _
    rw [h]
    rfl
  · intro lc h
    show [some (tpl.Lifecycle.getD _)] = _
    rw [h]
    rfl

/-- Witness of the amended C12: the empty template, and a template with its
own securityContext and lifecycle. -/
theorem worker_privileged_by_default_witness :
    (spec.builtWorker fixture.U fixture.cg1 fixture.secret1 "n1" {}).Spec.Containers.map
        (fun c => c.SecurityContext) = [some { Privileged := some true }] ∧
    (spec.builtWorker fixture.U fixture.cg1 fixture.secret1 "n1" {}).Spec.Containers.map
        (fun c => c.Lifecycle) = [some ⟨none, some ⟨some ⟨["sh", "-c", "umount /mnt/jfs"]⟩⟩⟩] ∧
    (spec.builtWorker fixture.U fixture.cg1 fixture.secret1 "n1"
        { SecurityContext := some { Privileged := some false },
          Lifecycle := some {} }).Spec.Containers.map
        (fun c => c.SecurityContext) = [some { Privileged := some false }] ∧
    (spec.builtWorker fixture.U fixture.cg1 fixture.secret1 "n1"
        { SecurityContext := some { Privileged := some false },
          Lifecycle := some {} }).Spec.Containers.map
        (fun c => c.Lifecycle) = [some {}] :=
  ⟨(worker_privileged_by_default fixture.U fixture.cg1 fixture.secret1 "n1" {}).2.1 rfl,
   (worker_privileged_by_default fixture.U fixture.cg1 fixture.secret1 "n1" {}).2.2.2.1 rfl,
   (worker_privileged_by_default fixture.U fixture.cg1 fixture.secret1 "n1"
      { SecurityContext := some { Privileged := some false },
        Lifecycle := some {} }).2.2.1 _ rfl,
   (worker_privileged_by_default fixture.U fixture.cg1 fixture.secret1 "n1"
      { SecurityContext := some { Privileged := some false },
        Lifecycle := some {} }).2.2.2.2 _ rfl⟩

theorem NewCacheGroupWorker_snd (U : Utils) (p : builder.PodBuilder) :
    (builder.NewCacheGroupWorker U p).2 = builder.genInitConfigVolumes p := rfl

theorem genInitConfigVolumes_of_empty (p : builder.PodBuilder) (h : p.initConfig = "") :
    builder.genInitConfigVolumes p = p := by
  unfold builder.genInitConfigVolumes
  simp only [h, if_true]

theorem genInitConfigVolumes_spec (p : builder.PodBuilder) :
    builder.genInitConfigVolumes p =
      { p with spec :=
          { p.spec with Volumes := (builder.genInitConfigVolumes p).spec.Volumes
                        VolumeMounts := (builder.genInitConfigVolumes p).spec.VolumeMounts } } := by
  unfold builder.genInitConfigVolumes
  split <;> rfl

/-- Two builders that differ at most in their credential map build the same
worker when their auth commands agree. -/
theorem worker_congr (U : Utils) (p q : builder.PodBuilder) (h1 : q.volName = p.volName)
    (h2 : q.cg = p.cg) (h3 : q.node = p.node) (h4 : q.spec = p.spec)
    (h5 : q.initConfig = p.initConfig) (h6 : builder.genAuthCmds U q = builder.genAuthCmds U p) :
    (builder.NewCacheGroupWorker U q).1 = (builder.NewCacheGroupWorker U p).1 := by
  rw [NewCacheGroupWorker_fst, NewCacheGroupWorker_fst, genCommands_eq, genCommands_eq,
    genCommandsOpts_eq, genCommandsOpts_eq, genEnvs_eq, genEnvs_eq, h6]
  have hv : (builder.genInitConfigVolumes q).spec = (builder.genInitConfigVolumes p).spec := by
    clear h6
    obtain ⟨qv, qcg, qn, qs, qsd, qic⟩ := q
    obtain ⟨pv, pcg, pn, ps, psd, pic⟩ := p
    simp only at h1 h2 h4 h5
    subst h1 h2 h4 h5
    unfold builder.genInitConfigVolumes
    split <;> rfl
  rw [hv, h1, h2, h3, h4]

theorem str_append_cancel_left (a x y : String) (h : a ++ x = a ++ y) : x = y := by
  apply String.ext
  have hd := congrArg String.data h
  simp only [String.data_append] at hd
  exact List.append_cancel_left hd

theorem str_append_cancel_right (x y b : String) (h : x ++ b = y ++ b) : x = y := by
  apply String.ext
  have hd := congrArg String.data h
  simp only [String.data_append] at hd
  exact List.append_cancel_right hd

/-- C13 as stated fails: with a credential that has an initconfig, the call
changes the builder (its template gains the init-config volume and mount), and
a second call returns a different worker, with init-config twice. -/
theorem builder_pure_counterexample :
    (builder.NewCacheGroupWorker fixture.U
        (builder.NewPodBuilder fixture.U fixture.cg1
          { Data := [("name", "myfs"), ("initconfig", "conf: 1")] } "n1" {})).2 ≠
      builder.NewPodBuilder fixture.U fixture.cg1
        { Data := [("name", "myfs"), ("initconfig", "conf: 1")] } "n1" {} ∧
    ((builder.NewCacheGroupWorker fixture.U
        (builder.NewPodBuilder fixture.U fixture.cg1
          { Data := [("name", "myfs"), ("initconfig", "conf: 1")] } "n1"
          {})).1.Spec.Volumes.toList.map (fun v => v.Name)) = ["init-config"] ∧
    ((builder.NewCacheGroupWorker fixture.U
        (builder.NewCacheGroupWorker fixture.U
          (builder.NewPodBuilder fixture.U fixture.cg1
            { Data := [("name", "myfs"), ("initconfig", "conf: 1")] } "n1"
            {})).2).1.Spec.Volumes.toList.map (fun v => v.Name)) =
      ["init-config", "init-config"] := by
  decide

/-- C13, amended: for a builder whose initConfig is empty the call leaves
the builder unchanged and a second call returns the same worker; for every
builder the call changes nothing of the builder but the volumes and volume
mounts of its template. -/
theorem NewCacheGroupWorker_receiver (U : Utils) (p : builder.PodBuilder) :
    (p.initConfig = "" →
      (builder.NewCacheGroupWorker U p).2 = p ∧
      (builder.NewCacheGroupWorker U (builder.NewCacheGroupWorker U p).2).1 =
        (builder.NewCacheGroupWorker U p).1) ∧
    (builder.NewCacheGroupWorker U p).2 =
      { p with spec :=
          { p.spec with
              Volumes := (builder.NewCacheGroupWorker U p).2.spec.Volumes
              VolumeMounts := (builder.NewCacheGroupWorker U p).2.spec.VolumeMounts } } := by
  constructor
  · intro h
    have h2 : (builder.NewCacheGroupWorker U p).2 = p := by
      rw [NewCacheGroupWorker_snd, genInitConfigVolumes_of_empty p h]
    exact ⟨h2, by rw [h2]⟩
  · rw [NewCacheGroupWorker_snd]
    exact genInitConfigVolumes_spec p

/-- Witness of the amended C13: the builder of the first scenario, whose
credential has no initconfig. -/
theorem NewCacheGroupWorker_receiver_witness :
    (builder.NewCacheGroupWorker fixture.U
        (builder.NewPodBuilder fixture.U fixture.cg1 fixture.secret1 "n1"
          fixture.baseTemplate)).2 =
      builder.NewPodBuilder fixture.U fixture.cg1 fixture.secret1 "n1" fixture.baseTemplate :=
  ((NewCacheGroupWorker_receiver fixture.U
      (builder.NewPodBuilder fixture.U fixture.cg1 fixture.secret1 "n1"
        fixture.baseTemplate)).1 (by decide)).1

/-- C20: for a fixed cache-group name equal worker names give equal node
names, and for a fixed node name equal worker names give equal cache-group
names. -/
theorem GenWorkerName_injective_each (c n : String) :
    (∀ n1 n2, common.GenWorkerName c n1 = common.GenWorkerName c n2 → n1 = n2) ∧
    (∀ c1 c2, common.GenWorkerName c1 n = common.GenWorkerName c2 n → c1 = c2) := by
  constructor
  · intro n1 n2 h
    rw [GenWorkerName_eq, GenWorkerName_eq] at h
    exact str_append_cancel_left _ _ _ h
  · intro c1 c2 h
    rw [GenWorkerName_eq, GenWorkerName_eq, String.append_assoc, String.append_assoc,
      String.append_assoc, String.append_assoc] at h
    exact str_append_cancel_right _ _ _ (str_append_cancel_left _ _ _ h)

/-- Witness of C20: cache group cg1 and node n1. -/
theorem GenWorkerName_injective_each_witness :
    common.GenWorkerName "cg1" "n1" = "juicefs-cg-worker-cg1-n1" ∧ "n1" = "n1" ∧ "cg1" = "cg1" :=
  ⟨by decide, (GenWorkerName_injective_each "cg1" "n1").1 "n1" "n1" rfl,
   (GenWorkerName_injective_each "cg1" "n1").2 "cg1" "cg1" rfl⟩

theorem authFlag_congr (c1 c2 : Map) (k : String) (h : Map.get c1 k = Map.get c2 k) :
    spec.authFlag c1 k = spec.authFlag c2 k := by
  unfold spec.authFlag
  rw [h]

theorem authFlag_stripped (c1 c2 : Map) (k : String)
    (hk : k = "token" ∨ k = "secret-key" ∨ k = "secret-key2")
    (h : (Map.get c1 k).isSome = (Map.get c2 k).isSome) :
    spec.authFlag c1 k = spec.authFlag c2 k := by
  unfold spec.authFlag
  rcases hk with hk | hk | hk <;> subst hk <;>
    cases h1 : Map.get c1 _ <;> cases h2 : Map.get c2 _ <;> simp [h1, h2] at h ⊢

theorem lookup_map_values (m : Map) (g : String → String → String) (k : String) :
    List.lookup k (m.map (fun e => (e.1, g e.1 e.2))) = (List.lookup k m).map (g k) := by
  induction m with
  | nil => rfl
  | cons e m ih =>
    obtain ⟨ek, ev⟩ := e
    simp only [List.map_cons, List.lookup_cons]
    by_cases h : k = ek
    · subst h
      simp
    · have hb : (k == ek) = false := by simpa using h
      simp only [hb, ih]

theorem authCli_congr (U : Utils) (c1 c2 : Map)
    (hkeys : ∀ k, (Map.get c1 k).isSome = (Map.get c2 k).isSome)
    (hvals : ∀ k, k ≠ "token" → k ≠ "secret-key" → k ≠ "secret-key2" →
      Map.get c1 k = Map.get c2 k) :
    spec.authCli U c1 = spec.authCli U c2 := by
  unfold spec.authCli
  have hn : Map.index c1 "name" = Map.index c2 "name" := by
    unfold Map.index
    rw [hvals "name" (by decide) (by decide) (by decide)]
  have hf : Map.get c1 "format-options" = Map.get c2 "format-options" :=
    hvals "format-options" (by decide) (by decide) (by decide)
  have hk : ∀ x ∈ ["token", "access-key", "access-key2", "bucket", "bucket2", "subdir",
      "secret-key", "secret-key2"], spec.authFlag c1 x = spec.authFlag c2 x := by
    intro x hx
    simp only [List.mem_cons, List.mem_singleton, List.not_mem_nil, or_false] at hx
    rcases hx with h | h | h | h | h | h | h | h
    · exact authFlag_stripped c1 c2 x (Or.inl h) (hkeys x)
    · exact authFlag_congr c1 c2 x (hvals x (by rw [h]; decide) (by rw [h]; decide)
        (by rw [h]; decide))
    · exact authFlag_congr c1 c2 x (hvals x (by rw [h]; decide) (by rw [h]; decide)
        (by rw [h]; decide))
    · exact authFlag_congr c1 c2 x (hvals x (by rw [h]; decide) (by rw [h]; decide)
        (by rw [h]; decide))
    · exact authFlag_congr c1 c2 x (hvals x (by rw [h]; decide) (by rw [h]; decide)
        (by rw [h]; decide))
    · exact authFlag_congr c1 c2 x (hvals x (by rw [h]; decide) (by rw [h]; decide)
        (by rw [h]; decide))
    · exact authFlag_stripped c1 c2 x (Or.inr (Or.inl h)) (hkeys x)
    · exact authFlag_stripped c1 c2 x (Or.inr (Or.inr h)) (hkeys x)
  rw [List.flatMap_congr hk, hn, hf]

theorem NewPodBuilder_initConfig_congr (U : Utils) (cg : juicefsiov1.CacheGroup)
    (s1 s2 : corev1.Secret) (node : String) (tpl : juicefsiov1.CacheGroupWorkerTemplate)
    (h : Map.get (U.ParseSecret s1) "initconfig" = Map.get (U.ParseSecret s2) "initconfig") :
    (builder.NewPodBuilder U cg s2 node tpl).initConfig =
      (builder.NewPodBuilder U cg s1 node tpl).initConfig := by
  simp only [builder.NewPodBuilder, h]

/-- C14: two credentials with the same keys that agree on every value but
those of token, secret-key and secret-key2 give, for the same CacheGroup, node
and template, the same worker description. -/
theorem worker_independent_of_stripped_values (U : Utils) (cg : juicefsiov1.CacheGroup)
    (s1 s2 : corev1.Secret) (node : String) (tpl : juicefsiov1.CacheGroupWorkerTemplate)
    (hkeys : ∀ k, (Map.get (U.ParseSecret s1) k).isSome = (Map.get (U.ParseSecret s2) k).isSome)
    (hvals : ∀ k, k ≠ "token" → k ≠ "secret-key" → k ≠ "secret-key2" →
      Map.get (U.ParseSecret s1) k = Map.get (U.ParseSecret s2) k) :
    spec.builtWorker U cg s1 node tpl = spec.builtWorker U cg s2 node tpl := by
  unfold spec.builtWorker
  have hi := NewPodBuilder_initConfig_congr U cg s1 s2 node tpl
    (hvals "initconfig" (by decide) (by decide) (by decide))
  have hv : (builder.NewPodBuilder U cg s2 node tpl).volName =
      (builder.NewPodBuilder U cg s1 node tpl).volName := by
    show Map.index _ "name" = Map.index _ "name"
    unfold Map.index
    rw [hvals "name" (by decide) (by decide) (by decide)]
  symm
  apply worker_congr U _ _ hv rfl rfl rfl hi
  by_cases h0 : (builder.NewPodBuilder U cg s1 node tpl).initConfig = ""
  · rw [genAuthCmds_cli U _ h0 rfl, genAuthCmds_cli U _ (hi.trans h0) rfl]
    exact (authCli_congr U _ _ hkeys hvals).symm
  · rw [genAuthCmds_cp U _ h0, genAuthCmds_cp U _ (fun h => h0 (hi.symm.trans h)), hv]

/-- Witness of C14: the credential of the first scenario, and the same with
another token and another secret key. -/
theorem worker_independent_of_stripped_values_witness :
    spec.builtWorker fixture.U fixture.cg1 fixture.secret1 "n1" fixture.baseTemplate =
      spec.builtWorker fixture.U fixture.cg1
        { Data := [("name", "myfs"), ("token", "T2"), ("access-key", "A"), ("secret-key", "S2")] }
        "n1" fixture.baseTemplate :=
  worker_independent_of_stripped_values fixture.U fixture.cg1 fixture.secret1
    { Data := [("name", "myfs"), ("token", "T2"), ("access-key", "A"), ("secret-key", "S2")] }
    "n1" fixture.baseTemplate
    (fun k => by
      have h := lookup_map_values fixture.secret1.Data
        (fun k v => if k = "token" then "T2" else if k = "secret-key" then "S2" else v) k
      have e : ([("name", "myfs"), ("token", "T2"), ("access-key", "A"), ("secret-key", "S2")] :
          Map) = fixture.secret1.Data.map (fun e => (e.1,
            if e.1 = "token" then "T2" else if e.1 = "secret-key" then "S2" else e.2)) := by
        decide
      beta_reduce at h
      rw [e]
      show (List.lookup k fixture.secret1.Data).isSome = (List.lookup k (List.map _ _)).isSome
      rw [h, Option.isSome_map'])
    (fun k h1 h2 _ => by
      have h := lookup_map_values fixture.secret1.Data
        (fun k v => if k = "token" then "T2" else if k = "secret-key" then "S2" else v) k
      have e : ([("name", "myfs"), ("token", "T2"), ("access-key", "A"), ("secret-key", "S2")] :
          Map) = fixture.secret1.Data.map (fun e => (e.1,
            if e.1 = "token" then "T2" else if e.1 = "secret-key" then "S2" else e.2)) := by
        decide
      beta_reduce at h
      rw [e]
      show List.lookup k fixture.secret1.Data = List.lookup k (List.map _ _)
      rw [h]
      simp [h1, h2])

theorem Join_cons_data (sep : String) (l : List String) (a : String) :
    (strings.Join (a :: l) sep).data = a.data ++ l.flatMap (fun w => sep.data ++ w.data) := by
  induction l generalizing a with
  | nil => simp [strings.Join]
  | cons b rest ih =>
    simp only [strings.Join, String.data_append, ih, List.flatMap_cons, List.append_assoc]

theorem authFlag_plain (c : Map) (k : String)
    (hk : k ∈ ["access-key", "access-key2", "bucket", "bucket2", "subdir"]) :
    spec.authFlag c k =
      (match Map.get c k with
       | none => []
       | some v => ["--" ++ k, v]) := by
  simp only [List.mem_cons, List.mem_singleton, List.not_mem_nil, or_false] at hk
  unfold spec.authFlag
  rcases hk with h | h | h | h | h <;> subst h <;> cases Map.get c _ <;> simp

theorem split_at_key (keys : List String) (hnd : keys.Nodup) (k : String) (hk : k ∈ keys) :
    ∃ pre post, keys = pre ++ k :: post ∧ k ∉ pre ∧ k ∉ post := by
  obtain ⟨pre, post, h⟩ := List.append_of_mem hk
  subst h
  refine ⟨pre, post, rfl, ?_, ?_⟩
  · intro hp
    have hd := (List.nodup_append.mp hnd).2.2
    exact hd hp (List.mem_cons_self k post)
  · intro hp
    have hc := (List.nodup_append.mp hnd).2.1
    exact (List.nodup_cons.mp hc).1 hp

/-- With equal name and format-options and equal values for every other key,
two credentials whose auth commands join to the same line agree on the key
too. -/
theorem authCli_join_inj (U : Utils) (c1 c2 : Map) (k : String)
    (hk : k ∈ ["access-key", "access-key2", "bucket", "bucket2", "subdir"])
    (hsame : ∀ k2, k2 ≠ k → Map.get c1 k2 = Map.get c2 k2)
    (hj : strings.Join (spec.authCli U c1) " " = strings.Join (spec.authCli U c2) " ") :
    Map.get c1 k = Map.get c2 k := by
  have hk8 : k ∈ ["token", "access-key", "access-key2", "bucket", "bucket2", "subdir",
      "secret-key", "secret-key2"] := by
    simp only [List.mem_cons, List.mem_singleton, List.not_mem_nil, or_false] at hk ⊢
    rcases hk with h | h | h | h | h <;> simp [h]
  have hkn : k ≠ "name" := by
    simp only [List.mem_cons, List.mem_singleton, List.not_mem_nil, or_false] at hk
    rcases hk with h | h | h | h | h <;> rw [h] <;> decide
  have hkf : k ≠ "format-options" := by
    simp only [List.mem_cons, List.mem_singleton, List.not_mem_nil, or_false] at hk
    rcases hk with h | h | h | h | h <;> rw [h] <;> decide
  obtain ⟨pre, post, hsplit, hpre, hpost⟩ := split_at_key _ (by decide) k hk8
  have hn : Map.index c1 "name" = Map.index c2 "name" := by
    unfold Map.index
    rw [hsame "name" (Ne.symm hkn)]
  have hf : Map.get c1 "format-options" = Map.get c2 "format-options" :=
    hsame "format-options" (Ne.symm hkf)
  have e1 : pre.flatMap (spec.authFlag c1) = pre.flatMap (spec.authFlag c2) :=
    List.flatMap_congr (fun x hx =>
      authFlag_congr c1 c2 x (hsame x (fun h => hpre (h ▸ hx))))
  have e2 : post.flatMap (spec.authFlag c1) = post.flatMap (spec.authFlag c2) :=
    List.flatMap_congr (fun x hx =>
      authFlag_congr c1 c2 x (hsame x (fun h => hpost (h ▸ hx))))
  have hd := congrArg String.data hj
  unfold spec.authCli at hd
  rw [hsplit, hn, hf] at hd
  simp only [List.cons_append, List.nil_append, Join_cons_data, List.flatMap_append,
    List.flatMap_cons, e1, e2, List.append_assoc] at hd
  simp only [List.cons.injEq, true_and, List.append_right_inj] at hd
  have hd3 := List.append_cancel_right hd
  rw [authFlag_plain c1 k hk, authFlag_plain c2 k hk] at hd3
  cases h1 : Map.get c1 k with
  | none =>
    cases h2 : Map.get c2 k with
    | none => rfl
    | some v2 =>
      rw [h1, h2] at hd3
      simp at hd3
  | some v1 =>
    cases h2 : Map.get c2 k with
    | none =>
      rw [h1, h2] at hd3
      simp at hd3
    | some v2 =>
      rw [h1, h2] at hd3
      simp only [List.flatMap_cons, List.flatMap_nil, List.append_nil, List.append_assoc] at hd3
      simp only [List.cons_append, List.cons.injEq, true_and, List.append_right_inj] at hd3
      rw [String.ext hd3]

/-- C18 as stated fails: two credentials with a non-empty initconfig that
differ only in the value of access-key give the same command. -/
theorem auth_argument_counterexample :
    Map.get [("name", "myfs"), ("initconfig", "conf: 1"), ("access-key", "A")] "access-key" ≠
      Map.get [("name", "myfs"), ("initconfig", "conf: 1"), ("access-key", "B")] "access-key" ∧
    ([("name", "myfs"), ("initconfig", "conf: 1"), ("access-key", "A")] : Map).filter
        (fun e => e.1 ≠ "access-key") =
      ([("name", "myfs"), ("initconfig", "conf: 1"), ("access-key", "B")] : Map).filter
        (fun e => e.1 ≠ "access-key") ∧
    (spec.builtWorker fixture.U fixture.cg1
        { Data := [("name", "myfs"), ("initconfig", "conf: 1"), ("access-key", "A")] } "n1"
        fixture.baseTemplate).Spec.Containers.map (fun c => c.Command) =
      (spec.builtWorker fixture.U fixture.cg1
        { Data := [("name", "myfs"), ("initconfig", "conf: 1"), ("access-key", "B")] } "n1"
        fixture.baseTemplate).Spec.Containers.map (fun c => c.Command) := by
  decide

/-- C18, amended: two credentials without a non-empty initconfig that differ
in the value of one of access-key, access-key2, bucket, bucket2, subdir and
agree on every other key give, for the same CacheGroup, node and template,
workers with different commands. -/
theorem auth_argument_change_changes_command (U : Utils) (cg : juicefsiov1.CacheGroup)
    (s1 s2 : corev1.Secret) (node : String) (tpl : juicefsiov1.CacheGroupWorkerTemplate)
    (k : String) (hk : k ∈ ["access-key", "access-key2", "bucket", "bucket2", "subdir"])
    (hinit : Map.get (U.ParseSecret s1) "initconfig" = none ∨
      Map.get (U.ParseSecret s1) "initconfig" = some "")
    (hdiff : Map.get (U.ParseSecret s1) k ≠ Map.get (U.ParseSecret s2) k)
    (hsame : ∀ k2, k2 ≠ k → Map.get (U.ParseSecret s1) k2 = Map.get (U.ParseSecret s2) k2) :
    (spec.builtWorker U cg s1 node tpl).Spec.Containers.map (fun c => c.Command) ≠
      (spec.builtWorker U cg s2 node tpl).Spec.Containers.map (fun c => c.Command) := by
  intro heq
  apply hdiff
  apply authCli_join_inj U _ _ k hk hsame
  have hki : k ≠ "initconfig" := by
    simp only [List.mem_cons, List.mem_singleton, List.not_mem_nil, or_false] at hk
    rcases hk with h | h | h | h | h <;> rw [h] <;> decide
  have hkn : k ≠ "name" := by
    simp only [List.mem_cons, List.mem_singleton, List.not_mem_nil, or_false] at hk
    rcases hk with h | h | h | h | h <;> rw [h] <;> decide
  have h1 := NewPodBuilder_initConfig_empty U cg s1 node tpl hinit
  have h2 : (builder.NewPodBuilder U cg s2 node tpl).initConfig = "" :=
    (NewPodBuilder_initConfig_congr U cg s1 s2 node tpl (hsame "initconfig" (Ne.symm hki))).trans
      h1
  have hv : (builder.NewPodBuilder U cg s2 node tpl).volName =
      (builder.NewPodBuilder U cg s1 node tpl).volName := by
    show Map.index _ "name" = Map.index _ "name"
    unfold Map.index
    rw [hsame "name" (Ne.symm hkn)]
  unfold spec.builtWorker at heq
  rw [NewCacheGroupWorker_fst, NewCacheGroupWorker_fst] at heq
  simp only [List.map_cons, List.map_nil] at heq
  rw [genCommands_eq, genCommands_eq, genCommandsOpts_eq, genCommandsOpts_eq,
    genAuthCmds_cli U _ h1 rfl, genAuthCmds_cli U _ h2 rfl, hv] at heq
  simp only [List.cons.injEq, and_true, true_and] at heq
  exact str_append_cancel_right _ _ _ (str_append_cancel_right _ _ _ heq)

/-- Witness of the amended C18: the credential of the first scenario, and the
same with access-key B. -/
theorem auth_argument_change_changes_command_witness :
    (spec.builtWorker fixture.U fixture.cg1 fixture.secret1 "n1"
        fixture.baseTemplate).Spec.Containers.map (fun c => c.Command) ≠
      (spec.builtWorker fixture.U fixture.cg1
        { Data := [("name", "myfs"), ("token", "T"), ("access-key", "B"), ("secret-key", "S")] }
        "n1" fixture.baseTemplate).Spec.Containers.map (fun c => c.Command) :=
  auth_argument_change_changes_command fixture.U fixture.cg1 fixture.secret1
    { Data := [("name", "myfs"), ("token", "T"), ("access-key", "B"), ("secret-key", "S")] }
    "n1" fixture.baseTemplate "access-key" (by decide) (by decide) (by decide)
    (fun k hk => by
      have h := lookup_map_values fixture.secret1.Data
        (fun k v => if k = "access-key" then "B" else v) k
      have e : ([("name", "myfs"), ("token", "T"), ("access-key", "B"), ("secret-key", "S")] :
          Map) = fixture.secret1.Data.map (fun e => (e.1,
            if e.1 = "access-key" then "B" else e.2)) := by
        decide
      beta_reduce at h
      rw [e]
      show List.lookup k fixture.secret1.Data = List.lookup k (List.map _ _)
      rw [h]
      simp [hk])

theorem hextable_getD_mem (i : Nat) (h : i < 16) :
    hex.hextable.data.getD i '0' ∈ "0123456789abcdef".data := by
  interval_cases i <;> decide

theorem EncodeToString_length (src : List Nat) :
    (hex.EncodeToString src).length = 2 * src.length := by
  unfold hex.EncodeToString
  show (List.flatMap src _).length = _
  induction src with
  | nil => rfl
  | cons b rest ih =>
    rw [List.flatMap_cons, List.length_append, ih]
    simp only [List.length_cons, List.length_nil]
    omega

theorem EncodeToString_digits (src : List Nat) :
    ∀ c ∈ (hex.EncodeToString src).data, c ∈ "0123456789abcdef".data := by
  intro c hc
  unfold hex.EncodeToString at hc
  simp only [List.mem_flatMap, List.mem_cons, List.mem_singleton, List.not_mem_nil,
    or_false] at hc
  obtain ⟨v, _, hv | hv⟩ := hc
  · rw [hv]
    exact hextable_getD_mem _ (by omega)
  · rw [hv]
    exact hextable_getD_mem _ (by omega)

theorem Sum256_length (data : List Nat) : (sha256.Sum256 data).length = 32 := by
  simp [sha256.Sum256, sha256.bytes]

set_option maxRecDepth 1000000 in
theorem Sum256_empty :
    hex.EncodeToString (sha256.Sum256 []) =
      "e3b0c44298fc1c149afbf4c8996fb92427ae41e4649b934ca495991b7852b855" := by
  decide

set_option maxRecDepth 1000000 in
theorem Sum256_abc :
    hex.EncodeToString (sha256.Sum256 [97, 98, 99]) =
      "ba7816bf8f01cfea414140de5dae2223b00361a396177a9cb410ff61f20015ad" := by
  decide

/-- C16: the names derived from a WarmUp name w are `juicefs-warmup-<w>`,
with the suffixes `-sa`, `-role` and `-binding` for the service account, the
role and the role binding. -/
theorem warmup_names (w : String) :
    common.GenJobName w = "juicefs-warmup-" ++ w ∧
    common.GenSaName w = "juicefs-warmup-" ++ w ++ "-sa" ∧
    common.GenRoleName w = "juicefs-warmup-" ++ w ++ "-role" ∧
    common.GenRoleBindingName w = "juicefs-warmup-" ++ w ++ "-binding" := by
  refine ⟨?_, ?_, ?_, ?_⟩ <;> apply String.ext <;>
    simp [common.GenJobName, common.GenSaName, common.GenRoleName, common.GenRoleBindingName,
      common.WarmUpNamePrefix, fmt.Sprintf, fmt.sprintfChars, String.data_append]

/-- The names of the sixth scenario: WarmUp w1. -/
theorem warmup_names_example :
    common.GenJobName "w1" = "juicefs-warmup-w1" ∧
    common.GenSaName "w1" = "juicefs-warmup-w1-sa" ∧
    common.GenRoleName "w1" = "juicefs-warmup-w1-role" ∧
    common.GenRoleBindingName "w1" = "juicefs-warmup-w1-binding" := by
  decide

/-- C17: IgnoreConflict returns nil exactly for nil and Conflict errors and
the error itself otherwise; IgnoreAlreadyExists returns nil exactly for nil and
AlreadyExists errors and the error itself otherwise; neither swallows the
other kind. -/
theorem Ignore_helpers (err : error) :
    (utils.IgnoreConflict err = none ↔ (err = none ∨ apierrors.IsConflict err = true)) ∧
    (¬ (err = none ∨ apierrors.IsConflict err = true) → utils.IgnoreConflict err = err) ∧
    (utils.IgnoreAlreadyExists err = none ↔
      (err = none ∨ apierrors.IsAlreadyExists err = true)) ∧
    (¬ (err = none ∨ apierrors.IsAlreadyExists err = true) →
      utils.IgnoreAlreadyExists err = err) ∧
    (apierrors.IsAlreadyExists err = true → utils.IgnoreConflict err = err) ∧
    (apierrors.IsConflict err = true → utils.IgnoreAlreadyExists err = err) := by
  have hex : apierrors.IsAlreadyExists err = true → apierrors.IsConflict err = false := by
    intro h
    unfold apierrors.IsAlreadyExists apierrors.ReasonForError at h
    unfold apierrors.IsConflict
    simp only [decide_eq_true_eq] at h
    simp [h, apierrors.knownReasons]
  refine ⟨?_, ?_, ?_, ?_, ?_, ?_⟩
  · unfold utils.IgnoreConflict
    by_cases h : apierrors.IsConflict err = true <;> simp [h]
  · intro h
    unfold utils.IgnoreConflict
    have h2 : ¬ apierrors.IsConflict err = true := fun hc => h (Or.inr hc)
    simp [h2]
  · unfold utils.IgnoreAlreadyExists
    by_cases h : apierrors.IsAlreadyExists err = true <;> simp [h]
  · intro h
    unfold utils.IgnoreAlreadyExists
    have h2 : ¬ apierrors.IsAlreadyExists err = true := fun hc => h (Or.inr hc)
    simp [h2]
  · intro h
    unfold utils.IgnoreConflict
    simp [hex h]
  · intro h
    unfold utils.IgnoreAlreadyExists
    have h2 : ¬ apierrors.IsAlreadyExists err = true := by
      intro ha
      rw [hex ha] at h
      exact Bool.false_ne_true h
    simp [h2]

/-- Witness of C17: an AlreadyExists error, a Conflict error and an error
that is neither. -/
theorem Ignore_helpers_witness :
    utils.IgnoreConflict (some (GoError.status "AlreadyExists" 409 "exists")) =
      some (GoError.status "AlreadyExists" 409 "exists") ∧
    utils.IgnoreAlreadyExists (some (GoError.status "Conflict" 409 "conflict")) =
      some (GoError.status "Conflict" 409 "conflict") ∧
    utils.IgnoreConflict (some (GoError.other "timeout")) = some (GoError.other "timeout") ∧
    utils.IgnoreAlreadyExists (some (GoError.other "timeout")) =
      some (GoError.other "timeout") :=
  ⟨(Ignore_helpers (some (GoError.status "AlreadyExists" 409 "exists"))).2.2.2.2.1 (by decide),
   (Ignore_helpers (some (GoError.status "Conflict" 409 "conflict"))).2.2.2.2.2 (by decide),
   (Ignore_helpers (some (GoError.other "timeout"))).2.1 (by decide),
   (Ignore_helpers (some (GoError.other "timeout"))).2.2.2.1 (by decide)⟩

/-- C19: GenHash returns, for every object, the lowercase hexadecimal
encoding of the SHA-256 digest of the bytes the serializer returns, 64
characters from 0-9a-f; objects with equal serializations get equal hashes;
and when the serializer returns no bytes with its error, the result is the
SHA-256 of the empty byte string. -/
theorem GenHash_total {α : Type} (Marshal : α → List Nat × error) (object : α) :
    utils.GenHash Marshal object = hex.EncodeToString (sha256.Sum256 (Marshal object).1) ∧
    (utils.GenHash Marshal object).length = 64 ∧
    (∀ c ∈ (utils.GenHash Marshal object).data, c ∈ "0123456789abcdef".data) ∧
    (∀ other, (Marshal object).1 = (Marshal other).1 →
      utils.GenHash Marshal object = utils.GenHash Marshal other) ∧
    ((∀ x, (Marshal x).2 ≠ none → (Marshal x).1 = []) → (Marshal object).2 ≠ none →
      utils.GenHash Marshal object =
        "e3b0c44298fc1c149afbf4c8996fb92427ae41e4649b934ca495991b7852b855") := by
  refine ⟨rfl, ?_, ?_, ?_, ?_⟩
  · show (hex.EncodeToString _).length = 64
    rw [EncodeToString_length, Sum256_length]
  · exact EncodeToString_digits _
  · intro other h
    unfold utils.GenHash
    rw [h]
  · intro hnil herr
    unfold utils.GenHash
    rw [hnil object herr]
    exact Sum256_empty

/-- Witness of C19: an unserializable object, and the text abc. -/
theorem GenHash_total_witness :
    utils.GenHash fixture.Marshal none =
      "e3b0c44298fc1c149afbf4c8996fb92427ae41e4649b934ca495991b7852b855" ∧
    utils.GenHash fixture.Marshal (some "abc") =
      "ba7816bf8f01cfea414140de5dae2223b00361a396177a9cb410ff61f20015ad" :=
  ⟨(GenHash_total fixture.Marshal none).2.2.2.2
      (fun x hx => by
        cases x with
        | none => rfl
        | some t => exact absurd rfl hx)
      (by decide),
   (GenHash_total fixture.Marshal (some "abc")).1.trans Sum256_abc⟩

theorem lookup_filter_ne (m : Map) (k k2 : String) (h : k2 ≠ k) :
    List.lookup k2 (m.filter (fun e => e.1 ≠ k)) = List.lookup k2 m := by
  induction m with
  | nil => rfl
  | cons e m ih =>
    obtain ⟨ek, ev⟩ := e
    by_cases hek : ek = k
    · have hb : (k2 == ek) = false := by
        rw [hek]
        simpa using h
      rw [List.filter_cons_of_neg (by simp [hek]), List.lookup_cons, hb]
      exact ih
    · rw [List.filter_cons_of_pos (by simp [hek]), List.lookup_cons, List.lookup_cons, ih]

theorem lookup_filter_self (m : Map) (k : String) :
    List.lookup k (m.filter (fun e => e.1 ≠ k)) = none := by
  induction m with
  | nil => rfl
  | cons e m ih =>
    obtain ⟨ek, ev⟩ := e
    by_cases hek : ek = k
    · rw [List.filter_cons_of_neg (by simp [hek])]
      exact ih
    · have hb : (k == ek) = false := by simpa using Ne.symm hek
      rw [List.filter_cons_of_pos (by simp [hek]), List.lookup_cons, hb]
      exact ih

theorem get_set (m : Map) (k v k2 : String) :
    Map.get (Map.set m k v) k2 = if k2 = k then some v else Map.get m k2 := by
  unfold Map.get Map.set
  rw [List.lookup_append]
  by_cases h : k2 = k
  · subst h
    rw [lookup_filter_self]
    simp [List.lookup]
  · have hb : (k2 == k) = false := by simpa using h
    rw [lookup_filter_ne m k k2 h]
    simp [List.lookup, hb, h]

theorem keys_set (m : Map) (k v : String) (h : (m.map Prod.fst).Nodup) :
    ((Map.set m k v).map Prod.fst).Nodup := by
  unfold Map.set
  rw [List.map_append, List.nodup_append]
  refine ⟨?_, by simp, ?_⟩
  · exact List.Nodup.sublist (List.Sublist.map _ (List.filter_sublist m)) h
  · intro a ha hb
    simp only [List.map_cons, List.map_nil, List.mem_singleton] at hb
    simp only [List.mem_map, List.mem_filter] at ha
    obtain ⟨e, ⟨_, he⟩, rfl⟩ := ha
    simp [hb] at he

theorem lookup_of_not_key (m : Map) (k : String) (h : k ∉ m.map Prod.fst) :
    List.lookup k m = none := by
  induction m with
  | nil => rfl
  | cons e m ih =>
    obtain ⟨ek, ev⟩ := e
    simp only [List.map_cons, List.mem_cons, not_or] at h
    have hb : (k == ek) = false := by simpa using h.1
    simp only [List.lookup_cons, hb, ih h.2]

theorem get_copyInto (src : Map) (hsrc : (src.map Prod.fst).Nodup) (data : Map) (k : String) :
    Map.get (builder.copyInto data src) k = (Map.get src k).or (Map.get data k) := by
  induction src generalizing data with
  | nil => rfl
  | cons e rest ih =>
    obtain ⟨a, b⟩ := e
    simp only [List.map_cons, List.nodup_cons] at hsrc
    have h := ih hsrc.2 (Map.set data a b)
    unfold builder.copyInto at h ⊢
    rw [List.foldl_cons, h, get_set]
    unfold Map.get
    by_cases hk : k = a
    · subst hk
      simp [lookup_of_not_key rest k hsrc.1, List.lookup]
    · have hb : (k == a) = false := by simpa using hk
      simp [hk, List.lookup, hb]

theorem keys_copyInto (src data : Map) (h : (data.map Prod.fst).Nodup) :
    ((builder.copyInto data src).map Prod.fst).Nodup := by
  induction src generalizing data with
  | nil => exact h
  | cons e rest ih =>
    unfold builder.copyInto
    rw [List.foldl_cons]
    exact ih _ (keys_set data e.1 e.2 h)

theorem keys_genJuiceFSSecretData (j : Option juicefsiov1.SyncSinkJuiceFS) (sfx : String) :
    ((builder.genJuiceFSSecretData j sfx).map Prod.fst).Nodup := by
  unfold builder.genJuiceFSSecretData
  cases j with
  | none => simp
  | some j =>
    simp only
    split <;> split <;> split <;>
      first
      | exact List.nodup_nil
      | (repeat' apply keys_set); exact List.nodup_nil

theorem keys_genExternalSecretData (x : Option juicefsiov1.SyncSinkExternal) (sfx : String) :
    ((builder.genExternalSecretData x sfx).map Prod.fst).Nodup := by
  unfold builder.genExternalSecretData
  cases x with
  | none => simp
  | some x =>
    simp only
    split <;> split <;>
      first
      | exact List.nodup_nil
      | (repeat' apply keys_set); exact List.nodup_nil

theorem get_nil (k : String) : Map.get [] k = none := rfl

theorem get_genJuiceFSSecretData (j : Option juicefsiov1.SyncSinkJuiceFS) (sfx k : String) :
    Map.get (builder.genJuiceFSSecretData j sfx) k =
      (match j with
       | none => none
       | some j =>
         if k = fmt.Sprintf "%s_SECRET_KEY" [sfx] ∧ j.SecretKey.Value ≠ "" then
           some j.SecretKey.Value
         else if k = fmt.Sprintf "%s_ACCESS_KEY" [sfx] ∧ j.AccessKey.Value ≠ "" then
           some j.AccessKey.Value
         else if k = fmt.Sprintf "%s_TOKEN" [sfx] ∧ j.Token.Value ≠ "" then
           some j.Token.Value
         else none) := by
  cases j with
  | none => rfl
  | some j =>
    unfold builder.genJuiceFSSecretData
    simp only
    by_cases h1 : j.Token.Value = "" <;> by_cases h2 : j.AccessKey.Value = "" <;>
      by_cases h3 : j.SecretKey.Value = "" <;>
      simp [h1, h2, h3, get_set, get_nil]

theorem get_genExternalSecretData (x : Option juicefsiov1.SyncSinkExternal) (sfx k : String) :
    Map.get (builder.genExternalSecretData x sfx) k =
      (match x with
       | none => none
       | some x =>
         if k = fmt.Sprintf "%s_SECRET_KEY" [sfx] ∧ x.SecretKey.Value ≠ "" then
           some x.SecretKey.Value
         else if k = fmt.Sprintf "%s_ACCESS_KEY" [sfx] ∧ x.AccessKey.Value ≠ "" then
           some x.AccessKey.Value
         else none) := by
  cases x with
  | none => rfl
  | some x =>
    unfold builder.genExternalSecretData
    simp only
    by_cases h2 : x.AccessKey.Value = "" <;> by_cases h3 : x.SecretKey.Value = "" <;>
      simp [h2, h3, get_set, get_nil]

theorem get_syncData (sync : juicefsiov1.Sync) (keys : Map) (k : String) :
    Map.get (spec.syncData sync keys) k =
      (Map.get (builder.genExternalSecretData sync.Spec.To.External "EXTERNAL_TO") k).or
        ((Map.get (builder.genExternalSecretData sync.Spec.From.External "EXTERNAL_FROM") k).or
          ((Map.get (builder.genJuiceFSSecretData sync.Spec.To.JuiceFS "JUICEFS_TO") k).or
            ((Map.get (builder.genJuiceFSSecretData sync.Spec.From.JuiceFS "JUICEFS_FROM") k).or
              (Map.get keys k)))) := by
  unfold spec.syncData
  rw [get_copyInto _ (keys_genExternalSecretData _ _), get_copyInto _ (keys_genExternalSecretData _ _),
    get_copyInto _ (keys_genJuiceFSSecretData _ _), get_copyInto _ (keys_genJuiceFSSecretData _ _)]

theorem sync_key_names :
    fmt.Sprintf "%s_TOKEN" ["JUICEFS_FROM"] = "JUICEFS_FROM_TOKEN" ∧
    fmt.Sprintf "%s_ACCESS_KEY" ["JUICEFS_FROM"] = "JUICEFS_FROM_ACCESS_KEY" ∧
    fmt.Sprintf "%s_SECRET_KEY" ["JUICEFS_FROM"] = "JUICEFS_FROM_SECRET_KEY" ∧
    fmt.Sprintf "%s_TOKEN" ["JUICEFS_TO"] = "JUICEFS_TO_TOKEN" ∧
    fmt.Sprintf "%s_ACCESS_KEY" ["JUICEFS_TO"] = "JUICEFS_TO_ACCESS_KEY" ∧
    fmt.Sprintf "%s_SECRET_KEY" ["JUICEFS_TO"] = "JUICEFS_TO_SECRET_KEY" ∧
    fmt.Sprintf "%s_ACCESS_KEY" ["EXTERNAL_FROM"] = "EXTERNAL_FROM_ACCESS_KEY" ∧
    fmt.Sprintf "%s_SECRET_KEY" ["EXTERNAL_FROM"] = "EXTERNAL_FROM_SECRET_KEY" ∧
    fmt.Sprintf "%s_ACCESS_KEY" ["EXTERNAL_TO"] = "EXTERNAL_TO_ACCESS_KEY" ∧
    fmt.Sprintf "%s_SECRET_KEY" ["EXTERNAL_TO"] = "EXTERNAL_TO_SECRET_KEY" := by
  decide

/-- Every entry of the string data, by key. -/
theorem get_syncData_keys (sync : juicefsiov1.Sync) (keys : Map) :
    Map.get (spec.syncData sync keys) "JUICEFS_FROM_TOKEN" =
      (sync.Spec.From.JuiceFS.bind (fun x => spec.nonEmpty x.Token.Value)).or (Map.get keys "JUICEFS_FROM_TOKEN") ∧
    Map.get (spec.syncData sync keys) "JUICEFS_FROM_ACCESS_KEY" =
      (sync.Spec.From.JuiceFS.bind (fun x => spec.nonEmpty x.AccessKey.Value)).or (Map.get keys "JUICEFS_FROM_ACCESS_KEY") ∧
    Map.get (spec.syncData sync keys) "JUICEFS_FROM_SECRET_KEY" =
      (sync.Spec.From.JuiceFS.bind (fun x => spec.nonEmpty x.SecretKey.Value)).or (Map.get keys "JUICEFS_FROM_SECRET_KEY") ∧
    Map.get (spec.syncData sync keys) "JUICEFS_TO_TOKEN" =
      (sync.Spec.To.JuiceFS.bind (fun x => spec.nonEmpty x.Token.Value)).or (Map.get keys "JUICEFS_TO_TOKEN") ∧
    Map.get (spec.syncData sync keys) "JUICEFS_TO_ACCESS_KEY" =
      (sync.Spec.To.JuiceFS.bind (fun x => spec.nonEmpty x.AccessKey.Value)).or (Map.get keys "JUICEFS_TO_ACCESS_KEY") ∧
    Map.get (spec.syncData sync keys) "JUICEFS_TO_SECRET_KEY" =
      (sync.Spec.To.JuiceFS.bind (fun x => spec.nonEmpty x.SecretKey.Value)).or (Map.get keys "JUICEFS_TO_SECRET_KEY") ∧
    Map.get (spec.syncData sync keys) "EXTERNAL_FROM_ACCESS_KEY" =
      (sync.Spec.From.External.bind (fun x => spec.nonEmpty x.AccessKey.Value)).or (Map.get keys "EXTERNAL_FROM_ACCESS_KEY") ∧
    Map.get (spec.syncData sync keys) "EXTERNAL_FROM_SECRET_KEY" =
      (sync.Spec.From.External.bind (fun x => spec.nonEmpty x.SecretKey.Value)).or (Map.get keys "EXTERNAL_FROM_SECRET_KEY") ∧
    Map.get (spec.syncData sync keys) "EXTERNAL_TO_ACCESS_KEY" =
      (sync.Spec.To.External.bind (fun x => spec.nonEmpty x.AccessKey.Value)).or (Map.get keys "EXTERNAL_TO_ACCESS_KEY") ∧
    Map.get (spec.syncData sync keys) "EXTERNAL_TO_SECRET_KEY" =
      (sync.Spec.To.External.bind (fun x => spec.nonEmpty x.SecretKey.Value)).or (Map.get keys "EXTERNAL_TO_SECRET_KEY") ∧
    Map.get (spec.syncData sync keys) "id_rsa" = Map.get keys "id_rsa" ∧
    Map.get (spec.syncData sync keys) "id_rsa.pub" = Map.get keys "id_rsa.pub" ∧
    (∀ k, k ∉ spec.syncSecretKeys → Map.get (spec.syncData sync keys) k = Map.get keys k) := by
  obtain ⟨k1, k2, k3, k4, k5, k6, k7, k8, k9, k10⟩ := sync_key_names
  simp only [get_syncData, get_genExternalSecretData, get_genJuiceFSSecretData, k1, k2, k3, k4,
    k5, k6, k7, k8, k9, k10]
  refine ⟨?_, ?_, ?_, ?_, ?_, ?_, ?_, ?_, ?_, ?_, ?_, ?_, ?_⟩
  all_goals first
    | (cases sync.Spec.To.External <;> cases sync.Spec.From.External <;>
        cases sync.Spec.To.JuiceFS <;> cases sync.Spec.From.JuiceFS <;>
        simp [spec.nonEmpty]; done)
    | (intro k hk
       simp only [spec.syncSecretKeys, List.mem_cons, List.mem_singleton, List.not_mem_nil,
         or_false, not_or] at hk
       obtain ⟨h1, h2, h3, h4, h5, h6, h7, h8, h9, h10, _, _⟩ := hk
       cases sync.Spec.To.External <;> cases sync.Spec.From.External <;>
         cases sync.Spec.To.JuiceFS <;> cases sync.Spec.From.JuiceFS <;>
         simp [h1, h2, h3, h4, h5, h6, h7, h8, h9, h10])

theorem NewSyncSecret_eq (D : SyncDeps) (sync : juicefsiov1.Sync) :
    builder.NewSyncSecret D sync =
      (if D.IsDistributed sync then
        match D.GenerateSSHKeyPair with
        | Except.error err => Except.error err
        | Except.ok kp =>
          Except.ok
            { ObjectMeta :=
                ⟨D.GenSyncSecretName sync.Name, sync.Namespace, [], [],
                  [⟨D.GroupVersion, D.KindSync, sync.Name, sync.UID, some true⟩]⟩
              StringData := spec.syncData sync [("id_rsa", kp.1), ("id_rsa.pub", kp.2)] }
      else
        Except.ok
          { ObjectMeta :=
              ⟨D.GenSyncSecretName sync.Name, sync.Namespace, [], [],
                [⟨D.GroupVersion, D.KindSync, sync.Name, sync.UID, some true⟩]⟩
            StringData := spec.syncData sync [] }) := by
  unfold builder.NewSyncSecret
  cases hd : D.IsDistributed sync with
  | false => rfl
  | true =>
    cases hk : D.GenerateSSHKeyPair with
    | error err => simp
    | ok kp =>
      obtain ⟨a, b⟩ := kp
      rfl

/-- C15: NewSyncSecret returns a secret unless the sync is distributed and
the key pair cannot be generated; the secret is in the Sync's namespace, has
the Sync as its single, controlling owner reference, and its string data holds
JUICEFS_FROM_/JUICEFS_TO_ TOKEN, ACCESS_KEY, SECRET_KEY and
EXTERNAL_FROM_/EXTERNAL_TO_ ACCESS_KEY, SECRET_KEY for the non-empty fields of
the sinks that are set, each with the field's value, id_rsa and id_rsa.pub
exactly when the sync is distributed, and nothing else. -/
theorem NewSyncSecret_entries (D : SyncDeps) (sync : juicefsiov1.Sync) :
    ((D.IsDistributed sync = false ∨ ∃ kp, D.GenerateSSHKeyPair = Except.ok kp) →
      ∃ secret, builder.NewSyncSecret D sync = Except.ok secret) ∧
    (∀ secret, builder.NewSyncSecret D sync = Except.ok secret →
      secret.ObjectMeta.Namespace = sync.Namespace ∧
      secret.ObjectMeta.OwnerReferences =
        [⟨D.GroupVersion, D.KindSync, sync.Name, sync.UID, some true⟩] ∧
      Map.get secret.StringData "JUICEFS_FROM_TOKEN" =
        sync.Spec.From.JuiceFS.bind (fun x => spec.nonEmpty x.Token.Value) ∧
      Map.get secret.StringData "JUICEFS_FROM_ACCESS_KEY" =
        sync.Spec.From.JuiceFS.bind (fun x => spec.nonEmpty x.AccessKey.Value) ∧
      Map.get secret.StringData "JUICEFS_FROM_SECRET_KEY" =
        sync.Spec.From.JuiceFS.bind (fun x => spec.nonEmpty x.SecretKey.Value) ∧
      Map.get secret.StringData "JUICEFS_TO_TOKEN" =
        sync.Spec.To.JuiceFS.bind (fun x => spec.nonEmpty x.Token.Value) ∧
      Map.get secret.StringData "JUICEFS_TO_ACCESS_KEY" =
        sync.Spec.To.JuiceFS.bind (fun x => spec.nonEmpty x.AccessKey.Value) ∧
      Map.get secret.StringData "JUICEFS_TO_SECRET_KEY" =
        sync.Spec.To.JuiceFS.bind (fun x => spec.nonEmpty x.SecretKey.Value) ∧
      Map.get secret.StringData "EXTERNAL_FROM_ACCESS_KEY" =
        sync.Spec.From.External.bind (fun x => spec.nonEmpty x.AccessKey.Value) ∧
      Map.get secret.StringData "EXTERNAL_FROM_SECRET_KEY" =
        sync.Spec.From.External.bind (fun x => spec.nonEmpty x.SecretKey.Value) ∧
      Map.get secret.StringData "EXTERNAL_TO_ACCESS_KEY" =
        sync.Spec.To.External.bind (fun x => spec.nonEmpty x.AccessKey.Value) ∧
      Map.get secret.StringData "EXTERNAL_TO_SECRET_KEY" =
        sync.Spec.To.External.bind (fun x => spec.nonEmpty x.SecretKey.Value) ∧
      (D.IsDistributed sync = true →
        ∃ priv pub, D.GenerateSSHKeyPair = Except.ok (priv, pub) ∧
          Map.get secret.StringData "id_rsa" = some priv ∧
          Map.get secret.StringData "id_rsa.pub" = some pub) ∧
      (D.IsDistributed sync = false →
        Map.get secret.StringData "id_rsa" = none ∧
        Map.get secret.StringData "id_rsa.pub" = none) ∧
      (∀ k, k ∉ ["JUICEFS_FROM_TOKEN", "JUICEFS_FROM_ACCESS_KEY", "JUICEFS_FROM_SECRET_KEY",
          "JUICEFS_TO_TOKEN", "JUICEFS_TO_ACCESS_KEY", "JUICEFS_TO_SECRET_KEY",
          "EXTERNAL_FROM_ACCESS_KEY", "EXTERNAL_FROM_SECRET_KEY", "EXTERNAL_TO_ACCESS_KEY",
          "EXTERNAL_TO_SECRET_KEY", "id_rsa", "id_rsa.pub"] →
        Map.get secret.StringData k = none) ∧
      (secret.StringData.map Prod.fst).Nodup) := by
  rw [NewSyncSecret_eq]
  constructor
  · rintro (h | ⟨kp, h⟩)
    · simp [h]
    · rw [h]
      cases D.IsDistributed sync <;> simp
  · intro secret hs
    cases hd : D.IsDistributed sync with
    | false =>
      simp only [hd, Bool.false_eq_true, if_false, Except.ok.injEq] at hs
      subst hs
      obtain ⟨e1, e2, e3, e4, e5, e6, e7, e8, e9, e10, e11, e12, e13⟩ :=
        get_syncData_keys sync []
      simp only [get_nil, Option.or_none] at e1 e2 e3 e4 e5 e6 e7 e8 e9 e10 e11 e12 e13
      refine ⟨rfl, rfl, e1, e2, e3, e4, e5, e6, e7, e8, e9, e10, ?_, ?_, e13, ?_⟩
      · intro h
        exact absurd h (by simp)
      · intro _
        exact ⟨e11, e12⟩
      · unfold spec.syncData
        exact keys_copyInto _ _ (keys_copyInto _ _ (keys_copyInto _ _ (keys_copyInto _ _
          List.nodup_nil)))
    | true =>
      simp only [hd, if_true] at hs
      cases hk : D.GenerateSSHKeyPair with
      | error err =>
        rw [hk] at hs
        simp at hs
      | ok kp =>
        rw [hk] at hs
        simp only [Except.ok.injEq] at hs
        subst hs
        obtain ⟨e1, e2, e3, e4, e5, e6, e7, e8, e9, e10, e11, e12, e13⟩ :=
          get_syncData_keys sync [("id_rsa", kp.1), ("id_rsa.pub", kp.2)]
        have hn : ∀ k, k ≠ "id_rsa" → k ≠ "id_rsa.pub" →
            Map.get [("id_rsa", kp.1), ("id_rsa.pub", kp.2)] k = none := by
          intro k h1 h2
          have hb1 : (k == "id_rsa") = false := by simpa using h1
          have hb2 : (k == "id_rsa.pub") = false := by simpa using h2
          simp [Map.get, List.lookup, hb1, hb2]
        rw [hn _ (by decide) (by decide), Option.or_none] at e1 e2 e3 e4 e5 e6 e7 e8 e9 e10
        refine ⟨rfl, rfl, e1, e2, e3, e4, e5, e6, e7, e8, e9, e10, ?_, ?_, ?_, ?_⟩
        · intro _
          exact ⟨kp.1, kp.2, rfl, e11.trans rfl, e12.trans rfl⟩
        · intro h
          exact absurd h (by simp)
        · intro k hk2
          rw [e13 k hk2]
          simp only [List.mem_cons, List.mem_singleton, List.not_mem_nil, or_false,
            not_or] at hk2
          exact hn k hk2.2.2.2.2.2.2.2.2.2.2.1 hk2.2.2.2.2.2.2.2.2.2.2.2
        · unfold spec.syncData
          exact keys_copyInto _ _ (keys_copyInto _ _ (keys_copyInto _ _ (keys_copyInto _ _
            (by simp))))

theorem NewSyncSecret_sync1 :
    builder.NewSyncSecret fixture.D fixture.sync1 = Except.ok fixture.syncSecret1 := by
  rfl

/-- Witness of C15: a distributed sync from an external sink with an access
key and an empty secret key to a JuiceFS sink with a token. -/
theorem NewSyncSecret_entries_witness :
    (∃ secret, builder.NewSyncSecret fixture.D fixture.sync1 = Except.ok secret) ∧
    builder.NewSyncSecret fixture.D fixture.sync1 = Except.ok fixture.syncSecret1 ∧
    Map.get fixture.syncSecret1.StringData "JUICEFS_TO_TOKEN" = some "T" ∧
    Map.get fixture.syncSecret1.StringData "EXTERNAL_FROM_SECRET_KEY" = none ∧
    Map.get fixture.syncSecret1.StringData "id_rsa" = some "PRIVATE" :=
  ⟨(NewSyncSecret_entries fixture.D fixture.sync1).1 (Or.inr ⟨_, rfl⟩),
   NewSyncSecret_sync1,
   ((NewSyncSecret_entries fixture.D fixture.sync1).2 fixture.syncSecret1
      NewSyncSecret_sync1).2.2.2.2.2.1.trans (by decide),
   ((NewSyncSecret_entries fixture.D fixture.sync1).2 fixture.syncSecret1
      NewSyncSecret_sync1).2.2.2.2.2.2.2.2.2.1.trans (by decide),
   by decide⟩

/-- C21: GenWorkerName is not injective on pairs: cache group a with node
b-c and cache group a-b with node c get the same worker name, so two
CacheGroups of one namespace can derive the same worker pod name. -/
theorem GenWorkerName_not_injective :
    (∃ c1 c2 n1 n2 : String,
      c1 ≠ c2 ∧ n1 ≠ n2 ∧ common.GenWorkerName c1 n1 = common.GenWorkerName c2 n2) ∧
    common.GenWorkerName "a" "b-c" = "juicefs-cg-worker-a-b-c" ∧
    common.GenWorkerName "a-b" "c" = "juicefs-cg-worker-a-b-c" ∧
    (∃ (cgA cgB : juicefsiov1.CacheGroup) (nA nB : String),
      cgA.Namespace = cgB.Namespace ∧ cgA.Name ≠ cgB.Name ∧ nA ≠ nB ∧
      (builder.newBasicPod cgA nA).ObjectMeta.Namespace =
        (builder.newBasicPod cgB nB).ObjectMeta.Namespace ∧
      (builder.newBasicPod cgA nA).ObjectMeta.Name =
        (builder.newBasicPod cgB nB).ObjectMeta.Name) := by
  refine ⟨⟨"a", "a-b", "b-c", "c", by decide, by decide, by decide⟩, by decide, by decide, ?_⟩
  exact ⟨{ fixture.cg1 with Name := "a" }, { fixture.cg1 with Name := "a-b" }, "b-c", "c",
    rfl, by decide, by decide, rfl, by decide⟩

theorem splitChars_no_sep (sep : Char) (a : List Char) (h : sep ∉ a) :
    strings.splitChars sep a = [a] := by
  induction a with
  | nil => rfl
  | cons c cs ih =>
    simp only [List.mem_cons, not_or] at h
    simp only [strings.splitChars, if_neg (Ne.symm h.1), ih h.2]

theorem splitChars_append_sep (sep : Char) (a rest : List Char) (h : sep ∉ a) :
    strings.splitChars sep (a ++ sep :: rest) = a :: strings.splitChars sep rest := by
  induction a with
  | nil => simp only [List.nil_append, strings.splitChars, if_true]
  | cons c cs ih =>
    simp only [List.mem_cons, not_or] at h
    have ih2 := ih h.2
    simp only [List.cons_append, strings.splitChars, if_neg (Ne.symm h.1)]
    show (match strings.splitChars sep (cs ++ sep :: rest) with
      | [] => [[c]]
      | h :: t => (c :: h) :: t) = _
    rw [ih2]

/-- Splitting a comma-joined list gives the list back when no element holds
a comma. -/
theorem Split_Join_comma (l : List String) (hne : l ≠ [])
    (h : ∀ x ∈ l, ',' ∉ x.data) : strings.Split (strings.Join l ",") ',' = l := by
  induction l with
  | nil => exact absurd rfl hne
  | cons a rest ih =>
    cases rest with
    | nil =>
      unfold strings.Split
      simp only [strings.Join]
      rw [splitChars_no_sep ',' a.data (h a (List.mem_cons_self a []))]
      rfl
    | cons b rest2 =>
      have ih2 := ih (List.cons_ne_nil b rest2) (fun x hx => h x (List.mem_cons_of_mem a hx))
      unfold strings.Split at ih2 ⊢
      have hd : (strings.Join (a :: b :: rest2) ",").data =
          a.data ++ ',' :: (strings.Join (b :: rest2) ",").data := by
        simp only [strings.Join, String.data_append, List.append_assoc]
        rfl
      rw [hd, splitChars_append_sep ',' a.data _ (h a (List.mem_cons_self a _)), List.map_cons,
        ih2]

theorem mem_TrimSpace (c : Char) (s : String) (h : c ∈ (strings.TrimSpace s).data) :
    c ∈ s.data := by
  unfold strings.TrimSpace at h
  simp only [List.mem_reverse] at h
  have h1 := (List.dropWhile_sublist strings.isSpace).subset h
  rw [List.mem_reverse] at h1
  exact (List.dropWhile_sublist strings.isSpace).subset h1

theorem lastCacheDir_mem (parsed : List (String × String)) (v : String)
    (h : spec.lastCacheDir parsed = some v) : ∃ o ∈ parsed, o.2 = v := by
  unfold spec.lastCacheDir at h
  simp only [Option.map_eq_some'] at h
  obtain ⟨o, ho, hv⟩ := h
  exact ⟨o, List.mem_of_mem_filter (List.mem_of_mem_getLast? ho), hv⟩

/-- No element of the option list holds a comma when the tag and the parsed
keys and values hold none. -/
theorem genCommandsOpts_no_comma (U : Utils) (p : builder.PodBuilder)
    (hc : ∀ o ∈ U.ParseOptions p.spec.Opts, ',' ∉ o.1.data ∧ ',' ∉ o.2.data)
    (ht : ',' ∉ (builder.GenCacheGroupName p.cg).data) :
    ∀ x ∈ builder.genCommandsOpts U p, ',' ∉ x.data := by
  intro x hx
  rw [genCommandsOpts_eq] at hx
  simp only [List.cons_append, List.nil_append, List.mem_cons, List.mem_append,
    List.mem_singleton, List.not_mem_nil, or_false] at hx
  rcases hx with hx | hx | hx | hx
  · rw [hx]
    decide
  · rw [hx, String.data_append]
    intro hm
    rcases List.mem_append.mp hm with h1 | h1
    · exact absurd h1 (by decide)
    · exact ht h1
  · simp only [spec.userOptEntries, List.mem_map, List.mem_filter] at hx
    obtain ⟨o, ⟨ho, _⟩, rfl⟩ := hx
    unfold spec.optEntry
    split
    · simp only [String.data_append]
      intro hm
      rcases List.mem_append.mp hm with h1 | h1
      · rcases List.mem_append.mp h1 with h2 | h2
        · exact (hc o ho).1 (mem_TrimSpace _ _ h2)
        · exact absurd h2 (by decide)
      · exact (hc o ho).2 (mem_TrimSpace _ _ h1)
    · intro hm
      exact (hc o ho).1 (mem_TrimSpace _ _ hm)
  · rw [hx]
    unfold spec.cacheDirEntry
    cases hl : spec.lastCacheDir (U.ParseOptions p.spec.Opts) with
    | none => decide
    | some v =>
      obtain ⟨o, ho, hv⟩ := lastCacheDir_mem _ v hl
      simp only [String.data_append]
      intro hm
      rcases List.mem_append.mp hm with h1 | h1
      · exact absurd h1 (by decide)
      · exact (hc o ho).2 (hv ▸ h1)

theorem genCommandsOpts_ne_nil (U : Utils) (p : builder.PodBuilder) :
    builder.genCommandsOpts U p ≠ [] := by
  rw [genCommandsOpts_eq]
  simp

set_option maxRecDepth 100000 in
theorem genCommands_comma_example :
    builder.genCommands fixture.U
        (builder.NewPodBuilder fixture.U fixture.cgProd fixture.secret1 "n1"
          { Opts := some ["a=1,cache-dir=/evil"] }) =
      ["sh", "-c",
       "/usr/bin/juicefs auth myfs --token $\x7bTOKEN\x7d --access-key A --secret-key $\x7bSECRET_KEY\x7d\nexec /sbin/mount.juicefs myfs /mnt/jfs -o foreground,cache-group=prod,a=1,cache-dir=/evil,cache-dir=/var/jfsCache"] := by
  decide

/-- C3 as stated fails: an option whose value holds a comma adds pieces to
the mount option string.  With the option `a=1,cache-dir=/evil` the string has
two cache-dir entries, the user's and the default; with `cache-dir=/a,writeback`
its last entry is `writeback`. -/
theorem mount_option_string_counterexample :
    builder.genCommands fixture.U
        (builder.NewPodBuilder fixture.U fixture.cgProd fixture.secret1 "n1"
          { Opts := some ["a=1,cache-dir=/evil"] }) =
      ["sh", "-c",
       "/usr/bin/juicefs auth myfs --token $\x7bTOKEN\x7d --access-key A --secret-key $\x7bSECRET_KEY\x7d\nexec /sbin/mount.juicefs myfs /mnt/jfs -o foreground,cache-group=prod,a=1,cache-dir=/evil,cache-dir=/var/jfsCache"] ∧
    strings.Join (builder.genCommandsOpts fixture.U
        (builder.NewPodBuilder fixture.U fixture.cgProd fixture.secret1 "n1"
          { Opts := some ["a=1,cache-dir=/evil"] })) "," =
      "foreground,cache-group=prod,a=1,cache-dir=/evil,cache-dir=/var/jfsCache" ∧
    (strings.Split "foreground,cache-group=prod,a=1,cache-dir=/evil,cache-dir=/var/jfsCache"
        ',').filter (fun e => spec.optKey e = "cache-dir") =
      ["cache-dir=/evil", "cache-dir=/var/jfsCache"] ∧
    strings.Join (builder.genCommandsOpts fixture.U
        (builder.NewPodBuilder fixture.U fixture.cgProd fixture.secret1 "n1"
          { Opts := some ["cache-dir=/a,writeback"] })) "," =
      "foreground,cache-group=prod,cache-dir=/a,writeback" ∧
    (strings.Split "foreground,cache-group=prod,cache-dir=/a,writeback" ',').getLast? =
      some "writeback" :=
  ⟨genCommands_comma_example, by decide, by decide, by decide, by decide⟩

/-- C3, amended: the option list that genCommands joins with commas ends with
the cache-dir entry, `cache-dir=<v>` for the last user option with key
cache-dir and a non-empty value v (splitting v on `:` and joining again gives
v) and `cache-dir=/var/jfsCache` when there is no such option; when the
cache-group tag and the parsed keys and values hold no comma and the parsed
keys are trimmed and free of `=`, the comma-separated entries of the mount
option string are the elements of that list, so the string has exactly one
cache-dir entry and it is its last entry. -/
theorem mount_option_string_cache_dir (U : Utils) (p : builder.PodBuilder) :
    builder.genCommands U p =
      ["sh", "-c",
       strings.Join (builder.genAuthCmds U p) " " ++ "\n" ++
         ("exec /sbin/mount.juicefs " ++ p.volName ++ " /mnt/jfs -o " ++
           strings.Join (builder.genCommandsOpts U p) ",")] ∧
    (∀ v, spec.lastCacheDir (U.ParseOptions p.spec.Opts) = some v →
      (builder.genCommandsOpts U p).getLast? = some ("cache-dir=" ++ v) ∧
      strings.Join (strings.Split v ':') ":" = v) ∧
    (spec.lastCacheDir (U.ParseOptions p.spec.Opts) = none →
      (builder.genCommandsOpts U p).getLast? = some "cache-dir=/var/jfsCache") ∧
    ((∀ o ∈ U.ParseOptions p.spec.Opts,
        strings.TrimSpace o.1 = o.1 ∧ '=' ∉ o.1.data ∧ ',' ∉ o.1.data ∧ ',' ∉ o.2.data) →
      ',' ∉ (builder.GenCacheGroupName p.cg).data →
      strings.Split (strings.Join (builder.genCommandsOpts U p) ",") ',' =
        builder.genCommandsOpts U p ∧
      (strings.Split (strings.Join (builder.genCommandsOpts U p) ",") ',').getLast? =
        some (spec.cacheDirEntry (U.ParseOptions p.spec.Opts)) ∧
      (strings.Split (strings.Join (builder.genCommandsOpts U p) ",") ',').filter
          (fun e => spec.optKey e = "cache-dir") =
        [spec.cacheDirEntry (U.ParseOptions p.spec.Opts)]) := by
  obtain ⟨h1, h2, h3, h4⟩ := genCommandsOpts_cache_dir U p
  refine ⟨h1, h2, h3, ?_⟩
  intro hk ht
  have hs := Split_Join_comma (builder.genCommandsOpts U p) (genCommandsOpts_ne_nil U p)
    (genCommandsOpts_no_comma U p (fun o ho => ⟨(hk o ho).2.2.1, (hk o ho).2.2.2⟩) ht)
  have hl : (builder.genCommandsOpts U p).getLast? =
      some (spec.cacheDirEntry (U.ParseOptions p.spec.Opts)) := by
    rw [genCommandsOpts_eq, List.getLast?_concat]
  rw [hs]
  exact ⟨rfl, hl, h4 (fun o ho => ⟨(hk o ho).1, (hk o ho).2.1⟩) _ hl⟩

/-- Witness of the amended C3: options a=1, cache-dir=/x:/y and b, and
options with a cache-dir that has no value. -/
theorem mount_option_string_cache_dir_witness :
    strings.Join (builder.genCommandsOpts fixture.U
        (builder.NewPodBuilder fixture.U fixture.cgProd fixture.secret1 "n1"
          { Opts := some ["a=1", "cache-dir=/x:/y", " b "] })) "," =
      "foreground,cache-group=prod,a=1,b,cache-dir=/x:/y" ∧
    (strings.Split (strings.Join (builder.genCommandsOpts fixture.U
        (builder.NewPodBuilder fixture.U fixture.cgProd fixture.secret1 "n1"
          { Opts := some ["a=1", "cache-dir=/x:/y", " b "] })) ",") ',').filter
        (fun e => spec.optKey e = "cache-dir") =
      [spec.cacheDirEntry (fixture.U.ParseOptions (some ["a=1", "cache-dir=/x:/y", " b "]))] ∧
    spec.cacheDirEntry (fixture.U.ParseOptions (some ["a=1", "cache-dir=/x:/y", " b "])) =
      "cache-dir=/x:/y" ∧
    (builder.genCommandsOpts fixture.U
        (builder.NewPodBuilder fixture.U fixture.cgProd fixture.secret1 "n1"
          { Opts := some ["a=1", "cache-dir=/x:/y", " b "] })).getLast? =
      some ("cache-dir=" ++ "/x:/y") ∧
    (builder.genCommandsOpts fixture.U
        (builder.NewPodBuilder fixture.U fixture.cgProd fixture.secret1 "n1"
          { Opts := some ["cache-dir", "a=1"] })).getLast? = some "cache-dir=/var/jfsCache" :=
  ⟨by decide,
   ((mount_option_string_cache_dir fixture.U
      (builder.NewPodBuilder fixture.U fixture.cgProd fixture.secret1 "n1"
        { Opts := some ["a=1", "cache-dir=/x:/y", " b "] })).2.2.2 (by decide) (by decide)).2.2,
   by decide,
   ((mount_option_string_cache_dir fixture.U
      (builder.NewPodBuilder fixture.U fixture.cgProd fixture.secret1 "n1"
        { Opts := some ["a=1", "cache-dir=/x:/y", " b "] })).2.1 "/x:/y" (by decide)).1,
   (mount_option_string_cache_dir fixture.U
      (builder.NewPodBuilder fixture.U fixture.cgProd fixture.secret1 "n1"
        { Opts := some ["cache-dir", "a=1"] })).2.2.1 (by decide)⟩

end JuiceFS
